import Mathlib

/-!
Shallow embedding of the NL→SQL core of `app/services/ai_service.py`
(`ai_erp_backend`): the intent heuristic, the SQL synthesizer's
post-processing, the enum normalizer, the safety validator, the query
executor wrapper, the result summarizer, and the orchestrator
`get_data_response`.  External collaborators (database, completion
backend) are modelled as oracle fields of a `Collab` structure; Python
exceptions are modelled with an explicit `Except` error type
distinguishing `ValueError` from other exceptions, matching the two
`except` arms of `get_data_response`.  Python `str` / `re` semantics are
modelled over ASCII (all literals in the source are ASCII).
-/

namespace ErpAi

/-! ### Character helpers (ASCII model of Python `str` and `re` semantics) -/

/-- ASCII lower-casing, as used by `str.lower()` and `re.IGNORECASE` matching. -/
def lowerChar (c : Char) : Char :=
  if 65 ≤ c.toNat ∧ c.toNat ≤ 90 then Char.ofNat (c.toNat + 32) else c

/-- ASCII upper-casing, as used by `str.upper()`. -/
def upperChar (c : Char) : Char :=
  if 97 ≤ c.toNat ∧ c.toNat ≤ 122 then Char.ofNat (c.toNat - 32) else c

/-- Python whitespace (`str.strip()`, regex `\s`): space, tab, LF, VT, FF, CR. -/
def isPySpace (c : Char) : Bool :=
  decide (c.toNat = 32 ∨ c.toNat = 9 ∨ c.toNat = 10 ∨ c.toNat = 11 ∨
          c.toNat = 12 ∨ c.toNat = 13)

/-- Regex word character `\w` (ASCII): letters, digits, underscore. -/
def isWordChar (c : Char) : Bool :=
  decide ((65 ≤ c.toNat ∧ c.toNat ≤ 90) ∨ (97 ≤ c.toNat ∧ c.toNat ≤ 122) ∨
          (48 ≤ c.toNat ∧ c.toNat ≤ 57) ∨ c.toNat = 95)

def lowerL (l : List Char) : List Char := l.map lowerChar

def upperL (l : List Char) : List Char := l.map upperChar

/-- Python `str.strip()`: drop whitespace from both ends. -/
def pyStripL (l : List Char) : List Char :=
  ((l.dropWhile isPySpace).reverse.dropWhile isPySpace).reverse

def pyStrip (s : String) : String := String.mk (pyStripL s.data)

/-- The single-quote character `'`. -/
def sq : Char := Char.ofNat 39

/-! ### Generic leftmost non-overlapping substitution (model of `re.sub`)

A matcher receives the suffix starting at the current scan position and
returns `some (k, rep)` when the regex matches there, where `k ≥ 1` is the
number of characters the match consumes and `rep` the replacement text
(capture groups already substituted).  The driver scans left to right,
emitting replacements for leftmost matches and resuming after each match,
exactly like `re.sub`. -/

def rewriteGo (m : List Char → Option (Nat × List Char)) : Nat → List Char → List Char
  | _, [] => []
  | Nat.succ k, _ :: cs => rewriteGo m k cs
  | 0, c :: cs =>
    match m (c :: cs) with
    | some (k, rep) => rep ++ rewriteGo m (k - 1) cs
    | none => c :: rewriteGo m 0 cs

def rewrite (m : List Char → Option (Nat × List Char)) (l : List Char) : List Char :=
  rewriteGo m 0 l

/-- Case-insensitive literal match: `lit` must be given lower-cased; on
success returns the remaining suffix. -/
def ciStrip : List Char → List Char → Option (List Char)
  | [], s => some s
  | _ :: _, [] => none
  | l :: ls, c :: cs => if lowerChar c = l then ciStrip ls cs else none

/-- Matcher for `re.sub(lit, rep, s, flags=re.IGNORECASE)` with a literal
pattern (`lit` lower-cased). -/
def ciMatcher (lit rep : List Char) (s : List Char) : Option (Nat × List Char) :=
  match ciStrip lit s with
  | some _ => some (lit.length, rep)
  | none => none

/-! ### Enum Normalizer (`normalize_enum_values`) -/

/-- The 15 (pattern, replacement) pairs of `enum_mappings`, in the source's
dict order.  Each pattern is a quoted literal applied with `re.IGNORECASE`. -/
def enum_mappings : List (String × String) :=
  [("'delivered'", "'DELIVERED'"), ("'Delivered'", "'DELIVERED'"), ("'DELIVERED'", "'DELIVERED'"),
   ("'pending'", "'PENDING'"), ("'Pending'", "'PENDING'"), ("'PENDING'", "'PENDING'"),
   ("'processing'", "'PROCESSING'"), ("'Processing'", "'PROCESSING'"), ("'PROCESSING'", "'PROCESSING'"),
   ("'shipped'", "'SHIPPED'"), ("'Shipped'", "'SHIPPED'"), ("'SHIPPED'", "'SHIPPED'"),
   ("'cancelled'", "'CANCELLED'"), ("'Cancelled'", "'CANCELLED'"), ("'CANCELLED'", "'CANCELLED'")]

/-- First phase of `normalize_enum_values`: fold the 15 case-insensitive
literal substitutions over the SQL text in order. -/
def applyCaseFixes (l : List Char) : List Char :=
  enum_mappings.foldl (fun acc pr => rewrite (ciMatcher (lowerL pr.1.data) pr.2.data) acc) l

def countSpaces (l : List Char) : Nat := (l.takeWhile isPySpace).length

/-- Test for the negative lookahead `(?!::)`. -/
def startsDoubleColon : List Char → Bool
  | c1 :: c2 :: _ => c1 = ':' && c2 = ':'
  | _ => false

/-- `'VALUE'` as a character list. -/
def quoted (v : List Char) : List Char := sq :: v ++ [sq]

def castSuffix : List Char := "::orderstatus".data

/-- Matcher for `(status\s*=\s*)'VALUE'(?!::)` (IGNORECASE); the replacement
is `\1'VALUE'::orderstatus`, group 1 kept verbatim from the input. -/
def statusEqMatch (v : List Char) (s : List Char) : Option (Nat × List Char) :=
  match ciStrip ("status".data) s with
  | none => none
  | some r1 =>
    match r1.drop (countSpaces r1) with
    | [] => none
    | c :: r3 =>
      if c = '=' then
        match ciStrip (lowerL (quoted v)) (r3.drop (countSpaces r3)) with
        | none => none
        | some r5 =>
          if startsDoubleColon r5 then none
          else
            some ((6 + countSpaces r1 + 1 + countSpaces r3) + (v.length + 2),
                  s.take (6 + countSpaces r1 + 1 + countSpaces r3) ++ quoted v ++ castSuffix)
      else none

/-- Lazy scan of `[^)]*?` up to a `'VALUE'` occurrence (IGNORECASE) that is
not followed by `::`; fails upon reaching `)` or the end of input. -/
def findValueIdx (v : List Char) : List Char → Option Nat
  | [] => none
  | c :: cs =>
    if c = ')' then none
    else
      match ciStrip (lowerL (quoted v)) (c :: cs) with
      | some rest =>
        if startsDoubleColon rest then (findValueIdx v cs).map (· + 1) else some 0
      | none => (findValueIdx v cs).map (· + 1)

/-- Index of the first `)` (the deterministic `[^)]*\)` tail of the pattern). -/
def findCloseIdx : List Char → Option Nat
  | [] => none
  | c :: cs => if c = ')' then some 0 else (findCloseIdx cs).map (· + 1)

/-- Matcher for `(IN\s*\([^)]*?)'VALUE'(?!::)([^)]*\))` (IGNORECASE); the
replacement is `\1'VALUE'::orderstatus\2`, groups kept verbatim. -/
def inClauseMatch (v : List Char) (s : List Char) : Option (Nat × List Char) :=
  match ciStrip ("in".data) s with
  | none => none
  | some r1 =>
    match r1.drop (countSpaces r1) with
    | [] => none
    | c :: r2 =>
      if c = '(' then
        match findValueIdx v r2 with
        | none => none
        | some j =>
          match findCloseIdx (r2.drop (j + (v.length + 2))) with
          | none => none
          | some m =>
            some ((2 + countSpaces r1 + 1 + j) + (v.length + 2) + (m + 1),
                  s.take (2 + countSpaces r1 + 1 + j) ++ quoted v ++ castSuffix
                    ++ (r2.drop (j + (v.length + 2))).take (m + 1))
      else none

def orderstatus_values : List String :=
  ["PENDING", "PROCESSING", "SHIPPED", "DELIVERED", "CANCELLED"]

/-- Second phase of `normalize_enum_values`: for each OrderStatus value in
order, the `status = 'VALUE'` cast rewrite, then the `IN (...)` cast rewrite. -/
def applyOrderStatusCasts (l : List Char) : List Char :=
  orderstatus_values.foldl
    (fun acc v => rewrite (inClauseMatch v.data) (rewrite (statusEqMatch v.data) acc)) l

/-- `normalize_enum_values` from `ai_service.py`. -/
def normalize_enum_values (sql : String) : String :=
  String.mk (applyOrderStatusCasts (applyCaseFixes sql.data))

/-! ### Safety Validator (`sanitize_sql`) -/

/-- Python exceptions, split the way `get_data_response`'s two `except`
arms split them: `ValueError` versus every other `Exception`. -/
inductive PyErr
  | valueError (msg : String)
  | otherError (msg : String)
deriving DecidableEq

/-- Does `kw` occur at the head of `s`, with a word boundary after it
(model of matching `kw\b` at the current position)? -/
def wordHere (kw : List Char) (s : List Char) : Bool :=
  kw.isPrefixOf s &&
    (match s.drop kw.length with
     | [] => true
     | c :: _ => !isWordChar c)

/-- Scan for `\bkw\b` with `prevW` recording whether the previous character
was a word character (`false` at the start of the string). -/
def hasWholeWordAux (kw : List Char) (prevW : Bool) : List Char → Bool
  | [] => false
  | c :: cs =>
    (!prevW && wordHere kw (c :: cs)) || hasWholeWordAux kw (isWordChar c) cs

/-- Model of `re.search(rf"\b{kw}\b", s) is not None`. -/
def hasWholeWord (kw : List Char) (l : List Char) : Bool :=
  hasWholeWordAux kw false l

def dangerous_keywords : List String :=
  ["DELETE", "DROP", "TRUNCATE", "UPDATE", "INSERT", "ALTER", "EXEC", "EXECUTE"]

/-- Is `pat` a substring of `l` (Python `pat in s`)? -/
def containsSub (pat : List Char) : List Char → Bool
  | [] => pat.isEmpty
  | c :: cs => pat.isPrefixOf (c :: cs) || containsSub pat cs

/-- `sanitize_sql` from `ai_service.py`: strip, require a `SELECT` prefix of
the upper-cased text, reject the first denylisted keyword occurring as a
whole word in the upper-cased text, and return the stripped query. -/
def sanitize_sql (query : String) : Except PyErr String :=
  if !("SELECT".data.isPrefixOf (upperL (pyStripL query.data))) then
    Except.error (PyErr.valueError "Only SELECT queries are allowed.")
  else
    match dangerous_keywords.find?
        (fun kw => hasWholeWord kw.data (upperL (pyStripL query.data))) with
    | some kw => Except.error (PyErr.valueError ("Dangerous SQL operation detected: " ++ kw))
    | none => Except.ok (pyStrip query)

/-! ### Collaborators and the pipeline

The database and the completion backend are opaque collaborators; each is
modelled as an oracle field below, universally quantified in the theorems.
The pipeline is instrumented with an event trace recording each invocation
of the Completion Gateway, the Safety Validator and the Query Executor. -/

/-- A chat message (`{"role": ..., "content": ...}`). -/
structure ChatMsg where
  role : String
  content : String
deriving DecidableEq

/-- A result row: a mapping of column name to (rendered) scalar value,
modelling `dict(zip(columns, row))`. -/
abbrev Row : Type := List (String × String)

/-- Outcomes of the external collaborators for one request.
`schemaText`: what `get_db_schema`'s database inspection produces (or the
connectivity error it raises).  `groq`: the completion backend's raw reply
per message list.  `dbExec`: the rows `db.execute(...).fetchall()` yields
per SQL string (or the database error raised). -/
structure Collab where
  schemaText : Except String String
  groq : List ChatMsg → Except String String
  dbExec : String → Except String (List Row)

/-- `get_db_schema`: database inspection; a failure propagates as a
non-`ValueError` exception. -/
def get_db_schema (c : Collab) : Except PyErr String :=
  match c.schemaText with
  | Except.ok s => Except.ok s
  | Except.error e => Except.error (PyErr.otherError e)

/-- `call_groq_chat`: returns the completion text stripped of surrounding
whitespace; any transport failure is re-raised as a `RuntimeError` (a
non-`ValueError` exception).  The SDK/REST transport choice only affects
the error message prefix and is abstracted into the oracle's message. -/
def call_groq_chat (c : Collab) (msgs : List ChatMsg) : Except PyErr String :=
  match c.groq msgs with
  | Except.ok t => Except.ok (pyStrip t)
  | Except.error e => Except.error (PyErr.otherError ("SDK call failed: " ++ e))

/-- The fixed trigger list of `is_conversational_query`. -/
def conversational_keywords : List String :=
  ["hello", "hi", "how are you", "thank you", "thanks", "bye", "goodbye",
   "what can you do", "help", "who are you", "what is your name", "tell me a joke", "hai"]

/-- Matcher for `re.sub(r"[^\w\s]", "", -)`: drop one non-word, non-space
character. -/
def punctMatch (s : List Char) : Option (Nat × List Char) :=
  match s with
  | [] => none
  | c :: _ => if !isWordChar c && !isPySpace c then some (1, []) else none

/-- `is_conversational_query` from `ai_service.py`. -/
def is_conversational_query (query : String) : Bool :=
  let cleaned := pyStripL (rewrite punctMatch (lowerL query.data))
  conversational_keywords.any
    (fun kw => kw.data.isPrefixOf cleaned || cleaned = kw.data)

def unrelated_keywords : List String :=
  ["movie", "song", "weather", "capital", "sport", "game", "recipe"]

/-- The prompt built by `get_conversational_response` for non-canned input. -/
def mkConvPrompt (query : String) : String :=
  "User says: '" ++ query ++
    "'. Respond in a friendly, brief, and helpful manner. Your name is Blu. You assist with business-related questions."

/-- Events recorded along one `get_data_response` run. -/
inductive Event
  | gatewayCall
  | validatorCall (sql : String)
  | executorCall (sql : String)
deriving DecidableEq

/-- `get_conversational_response` from `ai_service.py`, instrumented. -/
def get_conversational_responseT (c : Collab) (query : String) :
    Except PyErr String × List Event :=
  if unrelated_keywords.any (fun kw => containsSub kw.data (lowerL query.data)) then
    (Except.ok "I can only answer questions related to our business topics like sales, inventory, finance, and employees. How can I help you with those?", [])
  else if pyStripL (lowerL query.data) ∈ (["hi", "hello", "hai"] : List String).map String.data then
    (Except.ok "Hi there! How can I help you today?", [])
  else
    (call_groq_chat c
      [⟨"system", "You are a helpful AI assistant named Blu. Keep your responses concise and professional."⟩,
       ⟨"user", mkConvPrompt query⟩],
     [Event.gatewayCall])

/-- The `SQL_GENERATION_PROMPT` template with `schema` and `query` inserted. -/
def mkSqlPrompt (schema query : String) : String :=
  "\nYou are a SQL expert. Convert the following natural language query into a PostgreSQL SELECT statement.\n\nDatabase Schema:\n"
  ++ schema
  ++ "\n\nIMPORTANT ENUM VALUES:\n- OrderStatus: 'PENDING', 'PROCESSING', 'SHIPPED', 'DELIVERED', 'CANCELLED' (stored in UPPERCASE)\n- ExpenseType: 'OFFICE_SUPPLIES', 'UTILITIES', 'MAINTENANCE', 'SALARIES', 'TRAVEL', 'OTHER'\n- Department: 'SALES', 'MARKETING', 'HR', 'FINANCE', 'OPERATIONS'\n\nCRITICAL RULES FOR ENUM COLUMNS:\n- For OrderStatus comparisons, ALWAYS use: WHERE status = 'UPPERCASE_VALUE'::orderstatus\n- PostgreSQL enum values are case-sensitive - use UPPERCASE for comparison values\n- Example: WHERE status = 'DELIVERED'::orderstatus (NOT 'delivered')\n\nRules:\n1. Only generate SELECT queries.\n2. Use proper JOINs and table aliases.\n3. Use aggregate functions when appropriate.\n4. For date-related queries, use functions like `CURRENT_DATE`, `NOW()`, and `INTERVAL`.\n5. If a query is ambiguous, generate the most likely and useful query.\n6. If the query is conversational or clearly unrelated to the schema (e.g., \"what is the capital of France\"), return an empty string.\n7. WHEN FILTERING BY ENUM VALUES, ALWAYS use the type cast syntax: 'value'::enumtype\n8. Return only the SQL query, no explanations or markdown.\n\nUser Query: "
  ++ query
  ++ "\n\nSQL Query:\n"

/-- Matcher for the code-fence strippers `re.sub(r"```sql\n?", "", -)` and
`re.sub(r"```\n?", "", -)`: a literal match with an optional trailing
newline, replaced by nothing. -/
def fenceMatch (lit : List Char) (s : List Char) : Option (Nat × List Char) :=
  if lit.isPrefixOf s then
    match s.drop lit.length with
    | c :: _ => if c = Char.ofNat 10 then some (lit.length + 1, []) else some (lit.length, [])
    | [] => some (lit.length, [])
  else none

/-- Python `s.replace(";", "")`. -/
def removeSemis (l : List Char) : List Char := l.filter (fun c => !(c = ';' : Bool))

/-- Post-processing of the raw completion text in
`generate_sql_from_natural_language`: strip the ```` ```sql ```` and
```` ``` ```` code fences, strip surrounding whitespace, drop every
semicolon. -/
def postprocessRaw (raw : String) : List Char :=
  removeSemis (pyStripL
    (rewrite (fenceMatch ("```".data)) (rewrite (fenceMatch ("```sql".data)) raw.data)))

/-- `generate_sql_from_natural_language` from `ai_service.py`, instrumented:
schema introspection, one Completion Gateway call, post-processing, the
empty-string early return, enum normalization, and sanitization. -/
def generate_sqlT (c : Collab) (query : String) : Except PyErr String × List Event :=
  match get_db_schema c with
  | Except.error e => (Except.error e, [])
  | Except.ok dbSchema =>
    match call_groq_chat c [⟨"user", mkSqlPrompt dbSchema query⟩] with
    | Except.error e => (Except.error e, [Event.gatewayCall])
    | Except.ok raw =>
      if (postprocessRaw raw).isEmpty then (Except.ok "", [Event.gatewayCall])
      else
        (sanitize_sql (normalize_enum_values (String.mk (postprocessRaw raw))),
         [Event.gatewayCall,
          Event.validatorCall (normalize_enum_values (String.mk (postprocessRaw raw)))])

/-- `execute_sql_query` from `ai_service.py`: any database failure is
re-raised as `ValueError("Error executing SQL: ...")`. -/
def execute_sql_query (c : Collab) (sql : String) : Except PyErr (List Row) :=
  match c.dbExec sql with
  | Except.ok rows => Except.ok rows
  | Except.error e => Except.error (PyErr.valueError ("Error executing SQL: " ++ e))

/-- Rendering of one result row, modelling Python `str(dict)`. -/
def reprRow (r : Row) : String :=
  "\x7b" ++ String.intercalate ", "
    ((r : List (String × String)).map (fun p => "'" ++ p.1 ++ "': '" ++ p.2 ++ "'")) ++ "\x7d"

/-- Rendering of a row sample, modelling Python `str(results[:5])`. -/
def reprRows (rs : List Row) : String :=
  "[" ++ String.intercalate ", " (rs.map reprRow) ++ "]"

/-- The summarization prompt built by `generate_natural_language_summary`. -/
def mkSummaryPrompt (query : String) (results : List Row) : String :=
  "\n        User's original query: \"" ++ query
  ++ "\"\n        Query Results (sample): " ++ reprRows (results.take 5)
  ++ "\n        Total results found: " ++ toString results.length
  ++ "\n        \n        Provide a clear, concise, and natural language summary of these results.\n        - Interpret the data and explain what it means in a business context.\n        - If it's a number, explain what it represents (e.g., \"The total sales for the last week were...\").\n        - Do not just repeat the data. Summarize the key insights.\n        - Keep the tone professional and helpful.\n        - Do not mention that you are summarizing data or showing results. Just give the answer.\n        "

/-- `generate_natural_language_summary` from `ai_service.py`, instrumented:
the zero-row fixed message, otherwise one Completion Gateway call whose
failure (of any kind) falls back to the templated row-count message. -/
def generate_natural_language_summaryT (c : Collab) (query : String) (results : List Row) :
    String × List Event :=
  if results.isEmpty then
    ("I couldn't find any data for your request. Please try asking in a different way.", [])
  else
    match call_groq_chat c [⟨"user", mkSummaryPrompt query results⟩] with
    | Except.ok s => (s, [Event.gatewayCall])
    | Except.error _ =>
      ("Found " ++ toString results.length ++ " results, but couldn't summarize them due to an error.",
       [Event.gatewayCall])

/-- The `try` block of `get_data_response`: synthesis, the empty-SQL
conversational fallback, execution, and summarization, with every
uncaught exception surfacing as `Except.error`. -/
def get_data_response_bodyT (c : Collab) (query : String) :
    Except PyErr String × List Event :=
  match generate_sqlT c query with
  | (Except.error e, ev) => (Except.error e, ev)
  | (Except.ok sql, ev) =>
    if sql = "" then
      match get_conversational_responseT c query with
      | (r, ev2) => (r, ev ++ ev2)
    else
      match execute_sql_query c sql with
      | Except.error e => (Except.error e, ev ++ [Event.executorCall sql])
      | Except.ok results =>
        match generate_natural_language_summaryT c query results with
        | (s, ev3) => (Except.ok s, ev ++ [Event.executorCall sql] ++ ev3)

/-- `get_data_response` from `ai_service.py`: the `try` block with its two
`except` arms (`ValueError` first, then every other `Exception`), each
converting the failure into a user-visible string. -/
def get_data_responseT (c : Collab) (query : String) : String × List Event :=
  match get_data_response_bodyT c query with
  | (Except.ok s, ev) => (s, ev)
  | (Except.error (PyErr.valueError m), ev) =>
    ("I'm sorry, there was an issue processing your request. (" ++ m ++ ")", ev)
  | (Except.error (PyErr.otherError m), ev) =>
    ("An unexpected error occurred. Please try again. (" ++ m ++ ")", ev)

/-! ### Concrete collaborators used in witnesses and counterexamples -/

/-- A completion backend that always answers `SELECT 1`; the database
returns no rows. -/
def collabSelect1 : Collab :=
  ⟨Except.ok "", fun _ => Except.ok "SELECT 1", fun _ => Except.ok []⟩

/-- A completion backend that always answers the empty string. -/
def collabEmpty : Collab :=
  ⟨Except.ok "", fun _ => Except.ok "", fun _ => Except.ok []⟩

/-- A collaborator whose schema introspection raises a connectivity error. -/
def collabDbDown : Collab :=
  ⟨Except.error "db down", fun _ => Except.ok "", fun _ => Except.ok []⟩

/-- A collaborator whose completion backend fails exactly on the
summarization prompt for utterance `"q"` and the single row
`[("n", "1")]`, and answers `SELECT 1` otherwise; the database returns
that row. -/
def collabSummaryFail : Collab :=
  ⟨Except.ok "",
   fun msgs =>
     if msgs = [⟨"user", mkSummaryPrompt "q" [[("n", "1")]]⟩] then Except.error "boom"
     else Except.ok "SELECT 1",
   fun _ => Except.ok [[("n", "1")]]⟩

/-- A completion backend that answers a two-statement completion with
semicolons. -/
def collabMulti : Collab :=
  ⟨Except.ok "", fun _ => Except.ok "SELECT a; SELECT b;", fun _ => Except.ok []⟩

/-! ### Claim-side predicates

`WholeWordOccurs` re-states, independently of the scanner above, what the
spec means by "occurs as a whole word (at word boundaries)": the keyword
appears as a contiguous slice whose neighbouring characters (when they
exist) are not word characters.  `SafeSelect` is the safety invariant of
claim C1 stated with it. -/

/-- `kw` occurs in `l` delimited by word boundaries: some decomposition
`l = a ++ kw ++ b` has no word character adjacent to the occurrence. -/
def WholeWordOccurs (kw l : List Char) : Prop :=
  ∃ a b, l = a ++ kw ++ b ∧
    (∀ c, a.getLast? = some c → isWordChar c = false) ∧
    (∀ c, b.head? = some c → isWordChar c = false)

/-- The spec's hard invariant on statements reaching the Query Executor:
after trimming, the statement starts case-insensitively with `SELECT`,
and no denylisted keyword occurs in it as a whole word
(case-insensitively, via the upper-cased text). -/
def SafeSelect (s : String) : Prop :=
  "SELECT".data.isPrefixOf (upperL (pyStripL s.data)) = true ∧
  ∀ kw ∈ dangerous_keywords, ¬ WholeWordOccurs kw.data (upperL s.data)

/-- The boundary state seen by the scanner after reading `a`, starting from
previous-character-is-word-flag `pw`: `pw` if `a` is empty, otherwise
whether the last character of `a` is a word character. -/
def boundFlag (pw : Bool) : List Char → Bool
  | [] => pw
  | c :: a => boundFlag (isWordChar c) a

/-! ### Equivalence of the whole-word scanner with the boundary specification -/

theorem boundFlag_cons (pw : Bool) (c : Char) (a : List Char) :
    boundFlag pw (c :: a) = boundFlag (isWordChar c) a := rfl

theorem boundFlag_getLast? (a : List Char) :
    ∀ pw : Bool, boundFlag pw a = (match a.getLast? with
      | none => pw
      | some c => isWordChar c) := by
  induction a with
  | nil => intro pw; rfl
  | cons c a' ih =>
    intro pw
    rw [boundFlag_cons, ih (isWordChar c)]
    cases a' with
    | nil => simp
    | cons d as =>
      rw [List.getLast?_cons_cons]
      cases h : (d :: as).getLast? with
      | none => exact absurd (List.getLast?_eq_none_iff.mp h) (by simp)
      | some x => simp

theorem hasWholeWordAux_cons (kw : List Char) (pw : Bool) (c : Char) (cs : List Char) :
    hasWholeWordAux kw pw (c :: cs)
      = ((!pw && wordHere kw (c :: cs)) || hasWholeWordAux kw (isWordChar c) cs) := rfl

theorem hasWholeWordAux_spec (kw : List Char) (l : List Char) :
    ∀ pw : Bool, hasWholeWordAux kw pw l = true →
      ∃ a b, l = a ++ (kw ++ b) ∧ boundFlag pw a = false ∧
        (∀ c, b.head? = some c → isWordChar c = false) := by
  induction l with
  | nil => intro pw h; simp [hasWholeWordAux] at h
  | cons c cs ih =>
    intro pw h
    rw [hasWholeWordAux_cons, Bool.or_eq_true] at h
    rcases h with h1 | h2
    · rw [Bool.and_eq_true, Bool.not_eq_true'] at h1
      obtain ⟨hpw, hword⟩ := h1
      rw [wordHere, Bool.and_eq_true] at hword
      obtain ⟨b, hb⟩ := List.isPrefixOf_iff_prefix.mp hword.1
      refine ⟨[], b, by simpa using hb.symm, by simpa [boundFlag] using hpw, ?_⟩
      intro d hd
      have hdrop := hword.2
      rw [← hb, List.drop_left] at hdrop
      cases b with
      | nil => simp at hd
      | cons e es =>
        simp only [List.head?_cons, Option.some.injEq] at hd
        subst hd
        simpa using hdrop
    · obtain ⟨a, b, heq, hbf, hhead⟩ := ih (isWordChar c) h2
      exact ⟨c :: a, b, by simp [heq], by rwa [boundFlag_cons], hhead⟩

theorem hasWholeWordAux_of_spec (kw : List Char) (hkw : kw ≠ []) (a : List Char) :
    ∀ (pw : Bool) (b : List Char), boundFlag pw a = false →
      (∀ c, b.head? = some c → isWordChar c = false) →
      hasWholeWordAux kw pw (a ++ (kw ++ b)) = true := by
  induction a with
  | nil =>
    intro pw b hbf hb
    have hpw : pw = false := by simpa [boundFlag] using hbf
    subst hpw
    obtain ⟨k0, ks, hk⟩ : ∃ k0 ks, kw = k0 :: ks := by
      cases kw with
      | nil => exact absurd rfl hkw
      | cons k0 ks => exact ⟨k0, ks, rfl⟩
    have hword : wordHere kw (kw ++ b) = true := by
      rw [wordHere, Bool.and_eq_true]
      refine ⟨List.isPrefixOf_iff_prefix.mpr (List.prefix_append kw b), ?_⟩
      rw [List.drop_left]
      cases b with
      | nil => rfl
      | cons e es => simpa using hb e rfl
    subst hk
    rw [List.nil_append, List.cons_append, hasWholeWordAux_cons, ← List.cons_append, hword]
    simp
  | cons c a' ih =>
    intro pw b hbf hb
    rw [boundFlag_cons] at hbf
    rw [List.cons_append, hasWholeWordAux_cons, ih (isWordChar c) b hbf hb]
    simp

theorem hasWholeWord_iff (kw l : List Char) (hkw : kw ≠ []) :
    hasWholeWord kw l = true ↔ WholeWordOccurs kw l := by
  constructor
  · intro h
    obtain ⟨a, b, heq, hbf, hhead⟩ := hasWholeWordAux_spec kw l false h
    refine ⟨a, b, by simpa [List.append_assoc] using heq, ?_, hhead⟩
    intro c hc
    rw [boundFlag_getLast?, hc] at hbf
    exact hbf
  · rintro ⟨a, b, heq, hlast, hhead⟩
    rw [hasWholeWord, heq, List.append_assoc]
    refine hasWholeWordAux_of_spec kw hkw a false b ?_ hhead
    rw [boundFlag_getLast?]
    cases hA : a.getLast? with
    | none => rfl
    | some c => exact hlast c hA

/-! ### Properties of the Safety Validator -/

theorem dropWhile_eq_self_of_prefix {p : Char → Bool} {v u : List Char}
    (hvu : v <+: u) (hu : u.dropWhile p = u) : v.dropWhile p = v := by
  cases v with
  | nil => rfl
  | cons c vs =>
    obtain ⟨t, ht⟩ := hvu
    subst ht
    by_cases hpc : p c = true
    · exfalso
      rw [List.cons_append, List.dropWhile_cons, if_pos hpc] at hu
      have hlen := (List.dropWhile_suffix (l := vs ++ t) p).sublist.length_le
      rw [hu] at hlen
      simp only [List.length_cons] at hlen
      omega
    · rw [Bool.not_eq_true] at hpc
      simp [List.dropWhile_cons, hpc]

theorem pyStripL_idem (l : List Char) : pyStripL (pyStripL l) = pyStripL l := by
  have hform : pyStripL l = List.rdropWhile isPySpace (l.dropWhile isPySpace) := by
    rfl
  have hfront : (pyStripL l).dropWhile isPySpace = pyStripL l := by
    rw [hform]
    exact dropWhile_eq_self_of_prefix
      (List.rdropWhile_prefix isPySpace (l.dropWhile isPySpace))
      (List.dropWhile_idempotent isPySpace l)
  show List.rdropWhile isPySpace ((pyStripL l).dropWhile isPySpace) = pyStripL l
  rw [hfront, hform]
  exact List.rdropWhile_idempotent isPySpace (l.dropWhile isPySpace)

theorem sanitize_sql_ok {s r : String} (h : sanitize_sql s = Except.ok r) :
    r = pyStrip s ∧
    "SELECT".data.isPrefixOf (upperL (pyStripL s.data)) = true ∧
    ∀ kw ∈ dangerous_keywords, hasWholeWord kw.data (upperL (pyStripL s.data)) = false := by
  unfold sanitize_sql at h
  split at h
  · exact absurd h (by simp)
  · next hsel =>
    rw [Bool.not_eq_true', Bool.not_eq_false] at hsel
    split at h
    · exact absurd h (by simp)
    · next hf =>
      refine ⟨?_, hsel, ?_⟩
      · exact (Except.ok.inj h).symm
      · intro kw hkw
        have := List.find?_eq_none.mp hf kw hkw
        simpa using this

theorem sanitize_sql_error_iff (s : String) :
    (∃ m, sanitize_sql s = Except.error m) ↔
      ¬ ("SELECT".data.isPrefixOf (upperL (pyStripL s.data)) = true)
      ∨ ∃ kw ∈ dangerous_keywords,
          hasWholeWord kw.data (upperL (pyStripL s.data)) = true := by
  constructor
  · rintro ⟨m, hm⟩
    unfold sanitize_sql at hm
    split at hm
    · next hcond =>
      rw [Bool.not_eq_true'] at hcond
      exact Or.inl (by simp [hcond])
    · split at hm
      · next kw hf =>
        exact Or.inr ⟨kw, List.mem_of_find?_eq_some hf, by simpa using List.find?_some hf⟩
      · exact absurd hm (by simp)
  · intro h
    unfold sanitize_sql
    by_cases hsel : "SELECT".data.isPrefixOf (upperL (pyStripL s.data)) = true
    · rw [if_neg (by simp [hsel])]
      rcases h with h | ⟨kw, hkw, hww⟩
      · exact absurd hsel h
      · cases hf : (dangerous_keywords.find?
            (fun kw => hasWholeWord kw.data (upperL (pyStripL s.data)))) with
        | none => exact absurd hww (by simpa using List.find?_eq_none.mp hf kw hkw)
        | some kw2 =>
          exact ⟨PyErr.valueError ("Dangerous SQL operation detected: " ++ kw2), rfl⟩
    · have hsel' := Bool.eq_false_iff.mpr hsel
      rw [if_pos (by simp [hsel'])]
      exact ⟨PyErr.valueError "Only SELECT queries are allowed.", rfl⟩

/-- C2 (amended): the Safety Validator signals a rejection error iff the
trimmed statement does not case-insensitively start with `SELECT` or one of
the eight denylisted keywords occurs as a whole word in it; and whenever it
accepts, it returns its input string *trimmed of surrounding whitespace*
(hence unchanged exactly when the input carries no surrounding whitespace). -/
theorem c2_sanitize_reject_iff_and_returns_trimmed (s : String) :
    ((∃ m, sanitize_sql s = Except.error m) ↔
      ¬ ("SELECT".data.isPrefixOf (upperL (pyStripL s.data)) = true)
      ∨ ∃ kw ∈ dangerous_keywords,
          WholeWordOccurs kw.data (upperL (pyStripL s.data)))
    ∧ ∀ r, sanitize_sql s = Except.ok r → r = pyStrip s := by
  constructor
  · rw [sanitize_sql_error_iff]
    apply or_congr_right
    have hne : ∀ kw ∈ dangerous_keywords, kw.data ≠ ([] : List Char) := by decide
    constructor
    · rintro ⟨kw, hkw, hww⟩
      exact ⟨kw, hkw, (hasWholeWord_iff kw.data _ (hne kw hkw)).mp hww⟩
    · rintro ⟨kw, hkw, hww⟩
      exact ⟨kw, hkw, (hasWholeWord_iff kw.data _ (hne kw hkw)).mpr hww⟩
  · intro r h
    exact (sanitize_sql_ok h).1

/-- C2, counterexample to the claim as stated: on the input `" SELECT 1"`
the validator accepts but returns `"SELECT 1"`, which differs from the
input, refuting "whenever the validator accepts, it returns its input
string unchanged". -/
theorem c2_counterexample_not_unchanged :
    sanitize_sql " SELECT 1" = Except.ok "SELECT 1" ∧
    ("SELECT 1" : String) ≠ " SELECT 1" := by
  constructor
  · rfl
  · decide

/-- C2, witness: the amended theorem applied at the concrete accepted
input `" SELECT 1"`. -/
theorem c2_sanitize_witness :
    sanitize_sql " SELECT 1" = Except.ok "SELECT 1" ∧
    ("SELECT 1" : String) = pyStrip " SELECT 1" :=
  ⟨rfl, (c2_sanitize_reject_iff_and_returns_trimmed " SELECT 1").2 "SELECT 1" rfl⟩

/-! ### C1: only validated SELECT statements reach the Query Executor -/

theorem generate_sqlT_trace_no_exec (c : Collab) (q s : String) :
    Event.executorCall s ∉ (generate_sqlT c q).2 := by
  unfold generate_sqlT
  split
  · simp
  · split
    · simp
    · split <;> simp

theorem get_conversational_responseT_trace_no_exec (c : Collab) (q s : String) :
    Event.executorCall s ∉ (get_conversational_responseT c q).2 := by
  unfold get_conversational_responseT
  split
  · simp
  · split
    · simp
    · simp

theorem generate_natural_language_summaryT_trace_no_exec
    (c : Collab) (q : String) (rs : List Row) (s : String) :
    Event.executorCall s ∉ (generate_natural_language_summaryT c q rs).2 := by
  unfold generate_natural_language_summaryT
  split
  · simp
  · split <;> simp

theorem generate_sqlT_ok_nonempty {c : Collab} {q sql : String}
    (h : (generate_sqlT c q).1 = Except.ok sql) (hne : sql ≠ "") :
    ∃ nsql, sanitize_sql nsql = Except.ok sql := by
  unfold generate_sqlT at h
  split at h
  · exact absurd h (by simp)
  · split at h
    · exact absurd h (by simp)
    · next raw heq2 =>
      split at h
      · exact absurd (Except.ok.inj h).symm hne
      · dsimp only at h
        exact ⟨_, h⟩

theorem sanitize_ok_SafeSelect {x sql : String}
    (h : sanitize_sql x = Except.ok sql) : SafeSelect sql := by
  obtain ⟨hr, hsel, hkw⟩ := sanitize_sql_ok h
  subst hr
  constructor
  · show "SELECT".data.isPrefixOf (upperL (pyStripL (pyStripL x.data))) = true
    rw [pyStripL_idem]
    exact hsel
  · intro kw hkw2
    show ¬ WholeWordOccurs kw.data (upperL (pyStripL x.data))
    have hne : kw.data ≠ ([] : List Char) :=
      (by decide : ∀ k ∈ dangerous_keywords, k.data ≠ ([] : List Char)) kw hkw2
    intro hww
    have hb := (hasWholeWord_iff kw.data (upperL (pyStripL x.data)) hne).mpr hww
    rw [hkw kw hkw2] at hb
    exact Bool.false_ne_true hb

theorem get_data_responseT_trace (c : Collab) (q : String) :
    (get_data_responseT c q).2 = (get_data_response_bodyT c q).2 := by
  unfold get_data_responseT
  rcases get_data_response_bodyT c q with ⟨r, ev⟩
  rcases r with e | s2
  · rcases e with m | m <;> rfl
  · rfl

theorem bodyT_exec_mem {c : Collab} {q sql : String}
    (h : Event.executorCall sql ∈ (get_data_response_bodyT c q).2) :
    (generate_sqlT c q).1 = Except.ok sql ∧ sql ≠ "" := by
  unfold get_data_response_bodyT at h
  split at h
  · next e ev hg =>
    have hnev := generate_sqlT_trace_no_exec c q sql
    rw [hg] at hnev
    exact absurd h hnev
  · next s2 ev hg =>
    have hnev : Event.executorCall sql ∉ ev := by
      have := generate_sqlT_trace_no_exec c q sql
      rw [hg] at this
      exact this
    split at h
    · next hs2 =>
      split at h
      next r2 ev2 hc =>
        rcases List.mem_append.mp h with h1 | h2
        · exact absurd h1 hnev
        · have := get_conversational_responseT_trace_no_exec c q sql
          rw [hc] at this
          exact absurd h2 this
    · next hs2 =>
      split at h
      · next e hx =>
        rcases List.mem_append.mp h with h1 | h2
        · exact absurd h1 hnev
        · have heq : sql = s2 := by simpa using h2
          subst heq
          exact ⟨by rw [hg], hs2⟩
      · next results hx =>
        split at h
        next st ev3 hsum =>
          rcases List.mem_append.mp h with h12 | h3
          · rcases List.mem_append.mp h12 with h1 | h2
            · exact absurd h1 hnev
            · have heq : sql = s2 := by simpa using h2
              subst heq
              exact ⟨by rw [hg], hs2⟩
          · have := generate_natural_language_summaryT_trace_no_exec c q results sql
            rw [hsum] at this
            exact absurd h3 this

/-- C1: every SQL string that `get_data_response` passes to the Query
Executor trims to a statement starting case-insensitively with `SELECT`
and containing no whole-word occurrence of any of the eight denylisted
keywords — for every collaborator behavior and every utterance. -/
theorem c1_executed_sql_is_safe_select (c : Collab) (q sql : String)
    (h : Event.executorCall sql ∈ (get_data_responseT c q).2) : SafeSelect sql := by
  rw [get_data_responseT_trace] at h
  obtain ⟨hok, hne⟩ := bodyT_exec_mem h
  obtain ⟨nsql, hs⟩ := generate_sqlT_ok_nonempty hok hne
  exact sanitize_ok_SafeSelect hs

/-- C1, witness: a concrete run in which the executor is invoked; the
executed statement satisfies `SafeSelect` by the theorem. -/
theorem c1_witness :
    Event.executorCall "SELECT 1" ∈ (get_data_responseT collabSelect1 "q").2 ∧
    SafeSelect "SELECT 1" :=
  ⟨by decide, c1_executed_sql_is_safe_select collabSelect1 "q" "SELECT 1" (by decide)⟩

/-! ### C3: idempotence of the Enum Normalizer -/

/-- C3, counterexample: `normalize_enum_values` is not idempotent.  When an
`IN (...)` list contains the same enum literal twice, one application casts
only the first bare occurrence (the regex match consumes the whole
parenthesised tail), so a second application changes the string again. -/
theorem c3_counterexample_not_idempotent :
    normalize_enum_values
        (normalize_enum_values "SELECT * FROM orders WHERE status IN ('PENDING', 'PENDING')")
      ≠ normalize_enum_values "SELECT * FROM orders WHERE status IN ('PENDING', 'PENDING')" := by
  decide

/-- C3 (amended): the Enum Normalizer is idempotent on equality-comparison
rewrites and on already-normalized SQL (no type-cast is ever duplicated),
and stabilizes after additional passes on repeated `IN`-list literals; but
it is not idempotent in general (see the counterexample).  Shown here on
the spec's own example forms. -/
theorem c3_amended_idempotent_on_examples :
    (normalize_enum_values
        (normalize_enum_values "SELECT SUM(total_amount) FROM orders WHERE status = 'delivered'")
      = normalize_enum_values "SELECT SUM(total_amount) FROM orders WHERE status = 'delivered'")
    ∧ (normalize_enum_values "SELECT * FROM orders WHERE status = 'DELIVERED'::orderstatus"
      = "SELECT * FROM orders WHERE status = 'DELIVERED'::orderstatus")
    ∧ (normalize_enum_values
        (normalize_enum_values "SELECT * FROM orders WHERE status IN ('PENDING', 'SHIPPED')")
      = normalize_enum_values "SELECT * FROM orders WHERE status IN ('PENDING', 'SHIPPED')")
    ∧ (normalize_enum_values (normalize_enum_values
        (normalize_enum_values "SELECT * FROM orders WHERE status IN ('PENDING', 'PENDING')"))
      = normalize_enum_values
          (normalize_enum_values "SELECT * FROM orders WHERE status IN ('PENDING', 'PENDING')")) := by
  refine ⟨by decide, by decide, by decide, by decide⟩

/-! ### C5: behavior of the Orchestrator on the utterance "hello" -/

/-- C5, counterexample: `get_data_response` does not consult the Intent
Classifier and does not short-circuit conversational utterances before
synthesis: with a completion backend that answers `SELECT 1`, the run on
`"hello"` invokes both the Safety Validator and the Query Executor, even
though `is_conversational_query "hello"` holds. -/
theorem c5_counterexample_hello_reaches_validator_and_executor :
    is_conversational_query "hello" = true ∧
    Event.validatorCall "SELECT 1" ∈ (get_data_responseT collabSelect1 "hello").2 ∧
    Event.executorCall "SELECT 1" ∈ (get_data_responseT collabSelect1 "hello").2 := by
  refine ⟨by decide, by decide, by decide⟩

/-- C5 (amended): on `"hello"` the Orchestrator first performs SQL
synthesis (a Completion Gateway call); when the synthesis yields the empty
string, it returns the canned conversational greeting and the run invokes
neither the Safety Validator nor the Query Executor.  The Intent
Classifier is never consulted by `get_data_response`. -/
theorem c5_amended_hello_conversational_when_synthesis_empty
    (c : Collab) (sch : String)
    (hs : c.schemaText = Except.ok sch)
    (hg : c.groq [⟨"user", mkSqlPrompt sch "hello"⟩] = Except.ok "") :
    (get_data_responseT c "hello").1 = "Hi there! How can I help you today?" ∧
    (∀ s, Event.validatorCall s ∉ (get_data_responseT c "hello").2) ∧
    (∀ s, Event.executorCall s ∉ (get_data_responseT c "hello").2) ∧
    Event.gatewayCall ∈ (get_data_responseT c "hello").2 := by
  have hgen : generate_sqlT c "hello" = (Except.ok "", [Event.gatewayCall]) := by
    unfold generate_sqlT get_db_schema call_groq_chat
    rw [hs]
    dsimp only
    rw [hg]
    rfl
  have hconv : get_conversational_responseT c "hello" =
      (Except.ok "Hi there! How can I help you today?", []) := by
    unfold get_conversational_responseT
    rw [if_neg (by decide), if_pos (by decide)]
  have hfull : get_data_responseT c "hello" =
      ("Hi there! How can I help you today?", [Event.gatewayCall]) := by
    unfold get_data_responseT get_data_response_bodyT
    rw [hgen]
    dsimp only
    rw [if_pos rfl, hconv]
    rfl
  rw [hfull]
  refine ⟨rfl, ?_, ?_, by decide⟩
  · intro s; simp
  · intro s; simp

/-- C5, witness: the amended theorem applied to a concrete collaborator
whose completion backend answers the empty string. -/
theorem c5_amended_witness :
    (get_data_responseT collabEmpty "hello").1 = "Hi there! How can I help you today?" ∧
    (∀ s, Event.validatorCall s ∉ (get_data_responseT collabEmpty "hello").2) ∧
    (∀ s, Event.executorCall s ∉ (get_data_responseT collabEmpty "hello").2) ∧
    Event.gatewayCall ∈ (get_data_responseT collabEmpty "hello").2 :=
  c5_amended_hello_conversational_when_synthesis_empty collabEmpty "" rfl rfl

/-! ### C6: the entry point never raises -/

/-- C6: for every collaborator behavior and utterance, `get_data_response`
returns a string: a success of the `try` body is returned as-is, and every
failure is caught and converted — a `ValueError` (validation rejection,
execution error) to the "I'm sorry" message, any other exception
(synthesis or schema failure) to the "unexpected error" message.  No
exception escapes. -/
theorem c6_no_exception_escapes (c : Collab) (q : String) :
    (∀ s, (get_data_response_bodyT c q).1 = Except.ok s → (get_data_responseT c q).1 = s) ∧
    (∀ m, (get_data_response_bodyT c q).1 = Except.error (PyErr.valueError m) →
      (get_data_responseT c q).1
        = "I'm sorry, there was an issue processing your request. (" ++ m ++ ")") ∧
    (∀ m, (get_data_response_bodyT c q).1 = Except.error (PyErr.otherError m) →
      (get_data_responseT c q).1
        = "An unexpected error occurred. Please try again. (" ++ m ++ ")") := by
  unfold get_data_responseT
  rcases hb : get_data_response_bodyT c q with ⟨r, ev⟩
  rcases r with e | s
  · rcases e with m | m
    · refine ⟨?_, ?_, ?_⟩ <;> intro x hx <;> simp_all
    · refine ⟨?_, ?_, ?_⟩ <;> intro x hx <;> simp_all
  · refine ⟨?_, ?_, ?_⟩ <;> intro x hx <;> simp_all

/-- C6, witness: with a failing schema introspection the entry point
returns the "unexpected error" string rather than raising. -/
theorem c6_witness :
    (get_data_responseT collabDbDown "q").1
      = "An unexpected error occurred. Please try again. (db down)" :=
  (c6_no_exception_escapes collabDbDown "q").2.2 "db down" rfl

/-! ### C7: the Result Summarizer on zero rows -/

/-- C7: on an empty row sequence the Result Summarizer returns the fixed
"no data found" message and performs no Completion Gateway call (its event
trace is empty), for every collaborator and utterance. -/
theorem c7_summarizer_empty_rows_fixed_message (c : Collab) (q : String) :
    generate_natural_language_summaryT c q []
      = ("I couldn't find any data for your request. Please try asking in a different way.",
         []) := rfl

/-! ### C8: the summarization fallback path -/

theorem string_append_ne_empty_of_left (a b : String) (ha : a.data ≠ []) :
    a ++ b ≠ "" := by
  intro h
  have hd := congrArg String.data h
  rw [String.data_append] at hd
  exact ha (List.append_eq_nil.mp hd).1

/-- C8: when the Completion Gateway call inside the Result Summarizer
fails on a non-empty row sequence, the Summarizer returns the non-empty
templated message carrying the total row count, and the Orchestrator
returns exactly this string (not an exception). -/
theorem c8_summary_fallback_row_count (c : Collab) (q : String) (results : List Row)
    (e sql : String)
    (hne : results ≠ [])
    (hfail : c.groq [⟨"user", mkSummaryPrompt q results⟩] = Except.error e)
    (hsql : (generate_sqlT c q).1 = Except.ok sql) (hsqlne : sql ≠ "")
    (hdb : c.dbExec sql = Except.ok results) :
    (generate_natural_language_summaryT c q results).1
      = "Found " ++ toString results.length
          ++ " results, but couldn't summarize them due to an error." ∧
    (generate_natural_language_summaryT c q results).1 ≠ "" ∧
    (get_data_responseT c q).1 = (generate_natural_language_summaryT c q results).1 := by
  have hsum : generate_natural_language_summaryT c q results
      = ("Found " ++ toString results.length
          ++ " results, but couldn't summarize them due to an error.",
         [Event.gatewayCall]) := by
    unfold generate_natural_language_summaryT call_groq_chat
    rw [hfail, if_neg (by simp [hne])]
  refine ⟨by rw [hsum], ?_, ?_⟩
  · rw [hsum]
    apply string_append_ne_empty_of_left
    rw [String.data_append]
    intro hd
    exact absurd (List.append_eq_nil.mp hd).1 (by decide)
  · rcases hg : generate_sqlT c q with ⟨r, ev⟩
    rw [hg] at hsql
    have hr : r = Except.ok sql := hsql
    subst hr
    have hexec : execute_sql_query c sql = Except.ok results := by
      unfold execute_sql_query
      rw [hdb]
    rcases hst : generate_natural_language_summaryT c q results with ⟨st, ev3⟩
    have hbody : get_data_response_bodyT c q
        = (Except.ok st, ev ++ [Event.executorCall sql] ++ ev3) := by
      unfold get_data_response_bodyT
      rw [hg]
      dsimp only
      rw [if_neg hsqlne, hexec]
      dsimp only
      rw [hst]
    unfold get_data_responseT
    rw [hbody]

set_option maxRecDepth 8192 in
/-- C8, witness: the theorem applied to `collabSummaryFail`, whose gateway
fails exactly on the summarization call. -/
theorem c8_witness :
    (get_data_responseT collabSummaryFail "q").1
      = (generate_natural_language_summaryT collabSummaryFail "q" [[("n", "1")]]).1 :=
  (c8_summary_fallback_row_count collabSummaryFail "q" [[("n", "1")]] "boom" "SELECT 1"
    (by decide) rfl rfl (by decide) rfl).2.2

/-! ### C9: character provenance through the substitution passes

Every character the Enum Normalizer's rewrites emit comes either from the
input or from the inserted replacement text; since the synthesizer's
post-processing removes every semicolon before normalization, no produced
SQL string contains one. -/

theorem data_mk (l : List Char) : (String.mk l).data = l := rfl

theorem normalize_data (s : String) :
    (normalize_enum_values s).data = applyOrderStatusCasts (applyCaseFixes s.data) := by
  unfold normalize_enum_values
  exact data_mk _

theorem rewriteGo_zero_cons (m : List Char → Option (Nat × List Char)) (d : Char)
    (cs : List Char) :
    rewriteGo m 0 (d :: cs)
      = (match m (d :: cs) with
         | some (k, rep) => rep ++ rewriteGo m (k - 1) cs
         | none => d :: rewriteGo m 0 cs) := rfl

theorem rewriteGo_mem {m : List Char → Option (Nat × List Char)} {extra : List Char}
    (hm : ∀ s k rep, m s = some (k, rep) → ∀ c ∈ rep, c ∈ s ∨ c ∈ extra) :
    ∀ (l : List Char) (skip : Nat) (c : Char),
      c ∈ rewriteGo m skip l → c ∈ l ∨ c ∈ extra := by
  intro l
  induction l with
  | nil => intro skip c h; cases skip <;> simp [rewriteGo] at h
  | cons d cs ih =>
    intro skip c h
    cases skip with
    | succ k =>
      exact (ih k c h).imp (List.mem_cons_of_mem d) id
    | zero =>
      cases hm0 : m (d :: cs) with
      | none =>
        rw [rewriteGo_zero_cons, hm0] at h
        rcases List.mem_cons.mp h with h1 | h2
        · exact Or.inl (h1 ▸ List.mem_cons_self d cs)
        · exact (ih 0 c h2).imp (List.mem_cons_of_mem d) id
      | some pair =>
        rcases pair with ⟨k, rep⟩
        rw [rewriteGo_zero_cons, hm0] at h
        rcases List.mem_append.mp h with h1 | h2
        · exact hm (d :: cs) k rep hm0 c h1
        · exact (ih (k - 1) c h2).imp (List.mem_cons_of_mem d) id

theorem rewrite_not_mem {m : List Char → Option (Nat × List Char)} {extra : List Char}
    (hm : ∀ s k rep, m s = some (k, rep) → ∀ c ∈ rep, c ∈ s ∨ c ∈ extra)
    {l : List Char} {c : Char} (hl : c ∉ l) (hx : c ∉ extra) :
    c ∉ rewrite m l := by
  intro h
  rcases rewriteGo_mem hm l 0 c h with h1 | h2
  · exact hl h1
  · exact hx h2

/-- `ciStrip lit s` succeeds with remainder `r` exactly when `s` splits as a
case-variant of `lit` followed by `r`. -/
theorem ciStrip_some_iff (lit : List Char) :
    ∀ (s r : List Char), (ciStrip lit s = some r ↔ ∃ u, s = u ++ r ∧ lowerL u = lit) := by
  induction lit with
  | nil =>
    intro s r
    constructor
    · intro h
      exact ⟨[], by simpa using Option.some.inj h, rfl⟩
    · rintro ⟨u, hs, hu⟩
      have hu0 : u = [] := by simpa [lowerL] using hu
      subst hu0
      simpa [ciStrip] using hs
  | cons l0 ls ih =>
    intro s r
    cases s with
    | nil =>
      constructor
      · intro h; simp [ciStrip] at h
      · rintro ⟨u, hs, hu⟩
        have hu0 : u = [] := by
          cases u with
          | nil => rfl
          | cons a as => simp at hs
        subst hu0
        simp [lowerL] at hu
    | cons c cs =>
      by_cases hcl : lowerChar c = l0
      · rw [show ciStrip (l0 :: ls) (c :: cs) = ciStrip ls cs by simp [ciStrip, hcl]]
        rw [ih cs r]
        constructor
        · rintro ⟨u, hcs, hu⟩
          exact ⟨c :: u, by simp [hcs], by
            simp only [lowerL, List.map_cons, hcl]
            exact congrArg (List.cons l0) hu⟩
        · rintro ⟨u, hs, hu⟩
          cases u with
          | nil => simp [lowerL] at hu
          | cons d us =>
            rw [List.cons_append] at hs
            have hd : c = d := (List.cons.inj hs).1
            have hcs : cs = us ++ r := (List.cons.inj hs).2
            have hu' : lowerL us = ls := by
              simp only [lowerL, List.map_cons] at hu
              exact (List.cons.inj hu).2
            exact ⟨us, hcs, hu'⟩
      · rw [show ciStrip (l0 :: ls) (c :: cs) = none by simp [ciStrip, hcl]]
        constructor
        · intro h; simp at h
        · rintro ⟨u, hs, hu⟩
          cases u with
          | nil => simp [lowerL] at hu
          | cons d us =>
            rw [List.cons_append] at hs
            have hd : c = d := (List.cons.inj hs).1
            have : lowerChar d = l0 := by
              simp only [lowerL, List.map_cons] at hu
              exact (List.cons.inj hu).1
            exact absurd (hd ▸ this) hcl

theorem ciStrip_sub {lit s r : List Char} (h : ciStrip lit s = some r) :
    ∀ c ∈ r, c ∈ s := by
  obtain ⟨u, hs, _⟩ := (ciStrip_some_iff lit s r).mp h
  intro c hc
  rw [hs]
  exact List.mem_append_right u hc

theorem ciMatcher_provenance (lit rep : List Char) :
    ∀ s k r, ciMatcher lit rep s = some (k, r) → ∀ c ∈ r, c ∈ s ∨ c ∈ rep := by
  intro s k r h
  unfold ciMatcher at h
  split at h
  · have hr : r = rep := (Prod.mk.inj (Option.some.inj h)).2.symm
    subst hr
    exact fun c hc => Or.inr hc
  · exact absurd h (by simp)

theorem fenceMatch_provenance (lit : List Char) :
    ∀ s k r, fenceMatch lit s = some (k, r) → ∀ c ∈ r, c ∈ s ∨ c ∈ ([] : List Char) := by
  intro s k r h
  unfold fenceMatch at h
  split at h
  · split at h
    · split at h
      · have hr : r = [] := (Prod.mk.inj (Option.some.inj h)).2.symm
        subst hr; intro c hc; simp at hc
      · have hr : r = [] := (Prod.mk.inj (Option.some.inj h)).2.symm
        subst hr; intro c hc; simp at hc
    · have hr : r = [] := (Prod.mk.inj (Option.some.inj h)).2.symm
      subst hr; intro c hc; simp at hc
  · exact absurd h (by simp)

theorem statusEqMatch_provenance (v : List Char) :
    ∀ s k r, statusEqMatch v s = some (k, r) →
      ∀ c ∈ r, c ∈ s ∨ c ∈ (quoted v ++ castSuffix) := by
  intro s k r h
  unfold statusEqMatch at h
  split at h
  · exact absurd h (by simp)
  · split at h
    · exact absurd h (by simp)
    · split at h
      · split at h
        · exact absurd h (by simp)
        · split at h
          · exact absurd h (by simp)
          · have hr := (Prod.mk.inj (Option.some.inj h)).2.symm
            subst hr
            intro c hc
            rcases List.mem_append.mp hc with h1 | h2
            · rcases List.mem_append.mp h1 with h11 | h12
              · exact Or.inl (List.mem_of_mem_take h11)
              · exact Or.inr (List.mem_append_left castSuffix h12)
            · exact Or.inr (List.mem_append_right (quoted v) h2)
      · exact absurd h (by simp)

theorem inClauseMatch_provenance (v : List Char) :
    ∀ s k r, inClauseMatch v s = some (k, r) →
      ∀ c ∈ r, c ∈ s ∨ c ∈ (quoted v ++ castSuffix) := by
  intro s k r h
  unfold inClauseMatch at h
  split at h
  · exact absurd h (by simp)
  · next r1 hr1 =>
    split at h
    · exact absurd h (by simp)
    · next c0 r2 hr2 =>
      split at h
      · split at h
        · exact absurd h (by simp)
        · split at h
          · exact absurd h (by simp)
          · have hr := (Prod.mk.inj (Option.some.inj h)).2.symm
            subst hr
            have hr1s : ∀ c ∈ r1, c ∈ s := ciStrip_sub hr1
            have hr2s : ∀ c ∈ r2, c ∈ s := by
              intro c hc
              exact hr1s c (List.mem_of_mem_drop (hr2 ▸ List.mem_cons_of_mem c0 hc))
            intro c hc
            rcases List.mem_append.mp hc with h1 | h2
            · rcases List.mem_append.mp h1 with h11 | h12
              · rcases List.mem_append.mp h11 with h111 | h112
                · exact Or.inl (List.mem_of_mem_take h111)
                · exact Or.inr (List.mem_append_left castSuffix h112)
              · exact Or.inr (List.mem_append_right (quoted v) h12)
            · exact Or.inl (hr2s c (List.mem_of_mem_drop (List.mem_of_mem_take h2)))
      · exact absurd h (by simp)

theorem foldl_preserve {α β : Type} (P : α → Prop) (f : α → β → α) (l : List β)
    (hf : ∀ a b, b ∈ l → P a → P (f a b)) : ∀ a, P a → P (l.foldl f a) := by
  induction l with
  | nil => intro a ha; exact ha
  | cons b bs ih =>
    intro a ha
    exact ih (fun a2 b2 hb2 => hf a2 b2 (List.mem_cons_of_mem b hb2))
      (f a b) (hf a b (List.mem_cons_self b bs) ha)

theorem noSemi_normalize_enum_values {l : List Char} (hl : (';' : Char) ∉ l) :
    (';' : Char) ∉ (normalize_enum_values (String.mk l)).data := by
  rw [normalize_data, data_mk]
  have h1 : (';' : Char) ∉ applyCaseFixes l := by
    unfold applyCaseFixes
    refine foldl_preserve (fun a => (';' : Char) ∉ a) _ _ ?_ l hl
    intro a pr hpr ha
    refine rewrite_not_mem (ciMatcher_provenance (lowerL pr.1.data) pr.2.data) ha ?_
    have : ∀ p ∈ enum_mappings, (';' : Char) ∉ p.2.data := by decide
    exact this pr hpr
  unfold applyOrderStatusCasts
  refine foldl_preserve (fun a => (';' : Char) ∉ a) _ _ ?_ (applyCaseFixes l) h1
  intro a v hv ha
  have hx : (';' : Char) ∉ (quoted v.data ++ castSuffix) := by
    have : ∀ w ∈ orderstatus_values, (';' : Char) ∉ (quoted w.data ++ castSuffix) := by decide
    exact this v hv
  exact rewrite_not_mem (inClauseMatch_provenance v.data)
    (rewrite_not_mem (statusEqMatch_provenance v.data) ha hx) hx

theorem mem_pyStripL {c : Char} {l : List Char} (h : c ∈ pyStripL l) : c ∈ l := by
  unfold pyStripL at h
  rw [List.mem_reverse] at h
  have h2 := (List.dropWhile_suffix isPySpace).sublist.mem h
  rw [List.mem_reverse] at h2
  exact (List.dropWhile_suffix isPySpace).sublist.mem h2

theorem noSemi_postprocessRaw (raw : String) : (';' : Char) ∉ postprocessRaw raw := by
  unfold postprocessRaw removeSemis
  intro h
  have := List.mem_filter.mp h
  simp at this

/-- C9: every SQL string that `generate_sql_from_natural_language` returns
successfully contains no semicolon character: the post-processing deletes
every `;` from the completion (interior ones included), and neither the
Enum Normalizer nor the Safety Validator re-introduces one. -/
theorem c9_generated_sql_has_no_semicolon (c : Collab) (q sql : String)
    (h : (generate_sqlT c q).1 = Except.ok sql) : (';' : Char) ∉ sql.data := by
  unfold generate_sqlT at h
  split at h
  · exact absurd h (by simp)
  · split at h
    · exact absurd h (by simp)
    · next raw heq2 =>
      split at h
      · have hsql : sql = "" := (Except.ok.inj h).symm
        subst hsql
        simp
      · dsimp only at h
        obtain ⟨hr, -, -⟩ := sanitize_sql_ok h
        subst hr
        unfold pyStrip
        rw [data_mk]
        intro hc
        exact noSemi_normalize_enum_values (noSemi_postprocessRaw raw) (mem_pyStripL hc)

set_option maxRecDepth 8192 in
/-- C9, witness: a completion `"SELECT a; SELECT b;"` is collapsed to the
single semicolon-free statement `"SELECT a SELECT b"`. -/
theorem c9_witness :
    (generate_sqlT collabMulti "q").1 = Except.ok "SELECT a SELECT b" ∧
    (';' : Char) ∉ ("SELECT a SELECT b" : String).data :=
  ⟨rfl, c9_generated_sql_has_no_semicolon collabMulti "q" "SELECT a SELECT b" rfl⟩

/-! ### C4 / C10: case-folding of quoted enum literals, for every letter casing

One `re.IGNORECASE` literal-substitution pass is characterized on strings
of shape `p ++ '<w>' ++ t` where `w` is an arbitrary casing of an enum
value name: the pass whose quoted pattern body is that value rewrites the
literal to its canonical replacement (`pass_match`); a pass for any other
value leaves the string unchanged (`pass_nomatch`). -/

theorem lowerChar_sq : lowerChar sq = sq := by decide

theorem chars_no_quote {w base : List Char} (hw : lowerL w = base) (hs : sq ∉ base) :
    ∀ c ∈ w, lowerChar c ≠ sq := by
  intro c hc h
  exact hs (h ▸ (hw ▸ List.mem_map_of_mem lowerChar hc))

theorem ciStrip_cons_cons (l0 c : Char) (ls cs : List Char) :
    ciStrip (l0 :: ls) (c :: cs) = if lowerChar c = l0 then ciStrip ls cs else none := rfl

theorem ciMatcher_head_ne {c : Char} (lit rep rest : List Char) (hc : lowerChar c ≠ sq) :
    ciMatcher (sq :: lit) rep (c :: rest) = none := by
  unfold ciMatcher
  rw [ciStrip_cons_cons, if_neg hc]

theorem rewriteGo_skip (m : List Char → Option (Nat × List Char)) :
    ∀ (u t : List Char) (j : Nat), rewriteGo m (u.length + j) (u ++ t) = rewriteGo m j t := by
  intro u
  induction u with
  | nil => intro t j; rw [List.length_nil, Nat.zero_add, List.nil_append]
  | cons c us ih =>
    intro t j
    have hlen : (c :: us).length + j = Nat.succ (us.length + j) := by
      rw [List.length_cons]; omega
    rw [hlen, List.cons_append]
    show rewriteGo m (us.length + j) (us ++ t) = rewriteGo m j t
    exact ih t j

theorem rewriteGo_walk_noquote (lit rep : List Char) :
    ∀ (p t : List Char), (∀ c ∈ p, lowerChar c ≠ sq) →
      rewriteGo (ciMatcher (sq :: lit) rep) 0 (p ++ t)
        = p ++ rewriteGo (ciMatcher (sq :: lit) rep) 0 t := by
  intro p
  induction p with
  | nil => intro t _; rw [List.nil_append, List.nil_append]
  | cons c ps ih =>
    intro t hp
    rw [List.cons_append, rewriteGo_zero_cons,
        ciMatcher_head_ne lit rep (ps ++ t) (hp c (List.mem_cons_self c ps))]
    dsimp only
    rw [ih t (fun d hd => hp d (List.mem_cons_of_mem c hd)), List.cons_append]

theorem ciStrip_casing {lit u : List Char} (t : List Char) (hu : lowerL u = lit) :
    ciStrip lit (u ++ t) = some t :=
  (ciStrip_some_iff lit (u ++ t) t).mpr ⟨u, rfl, hu⟩

theorem ciStrip_bodyq_none {body base w : List Char} (t : List Char)
    (hw : lowerL w = base) (hsq : sq ∉ base) (hpre : ¬ base <+: body) :
    ciStrip (body ++ [sq]) (w ++ sq :: t) = none := by
  cases hx : ciStrip (body ++ [sq]) (w ++ sq :: t) with
  | none => rfl
  | some r =>
    exfalso
    obtain ⟨u, hsplit, hu⟩ := (ciStrip_some_iff _ _ _).mp hx
    rcases List.append_eq_append_iff.mp hsplit with ⟨a2, ha1, ha2⟩ | ⟨c2, hc1, hc2⟩
    · -- u = w ++ a2
      cases a2 with
      | nil =>
        rw [List.append_nil] at ha1
        subst ha1
        rw [hw] at hu
        exact hsq (hu ▸ List.mem_append_right body (by simp))
      | cons x a3 =>
        subst ha1
        rw [lowerL, List.map_append] at hu
        have hu' : base ++ lowerL (x :: a3) = body ++ [sq] := by
          rw [← hw]; exact hu
        have hb2 : base <+: body ++ [sq] := ⟨lowerL (x :: a3), hu'⟩
        rcases List.prefix_or_prefix_of_prefix hb2 (List.prefix_append body [sq]) with hb | hb
        · exact hpre hb
        · obtain ⟨y, hy⟩ := hb
          cases y with
          | nil =>
            rw [List.append_nil] at hy
            exact hpre (hy ▸ List.prefix_refl base)
          | cons z y2 =>
            rw [← hy, List.append_assoc] at hu'
            have hyx : (z :: y2) ++ lowerL (x :: a3) = [sq] :=
              List.append_cancel_left hu'
            rw [List.cons_append] at hyx
            have h2 := (List.cons.inj hyx).2
            have := List.append_eq_nil.mp h2
            simp [lowerL] at this
    · -- w = u ++ c2
      have hsqm : sq ∈ lowerL u := by
        rw [hu]; exact List.mem_append_right body (by simp)
      obtain ⟨x, hxu, hxl⟩ := List.mem_map.mp hsqm
      have hxw : x ∈ w := by rw [hc1]; exact List.mem_append_left c2 hxu
      exact hsq (hxl ▸ (hw ▸ List.mem_map_of_mem lowerChar hxw))

theorem pass_match (body rep P w t : List Char)
    (hP : ∀ c ∈ P, lowerChar c ≠ sq) (hw : lowerL w = body) :
    rewrite (ciMatcher (sq :: (body ++ [sq])) rep) (P ++ (sq :: (w ++ (sq :: t))))
      = P ++ rep ++ rewrite (ciMatcher (sq :: (body ++ [sq])) rep) t := by
  unfold rewrite
  rw [rewriteGo_walk_noquote (body ++ [sq]) rep P (sq :: (w ++ (sq :: t))) hP]
  have hm : ciMatcher (sq :: (body ++ [sq])) rep (sq :: (w ++ (sq :: t)))
      = some ((sq :: (body ++ [sq])).length, rep) := by
    unfold ciMatcher
    rw [show sq :: (w ++ (sq :: t)) = (sq :: (w ++ [sq])) ++ t by simp]
    rw [ciStrip_casing t (by
      show lowerL (sq :: (w ++ [sq])) = sq :: (body ++ [sq])
      rw [lowerL, List.map_cons, List.map_append, lowerChar_sq]
      rw [show List.map lowerChar w = body from hw]
      rw [show List.map lowerChar [sq] = [sq] by simp [lowerChar_sq]])]
  rw [rewriteGo_zero_cons, hm]
  dsimp only
  have hwlen : w.length = body.length := by
    have := congrArg List.length hw
    simpa [lowerL] using this
  have hk : (sq :: (body ++ [sq])).length - 1 = (w ++ [sq]).length + 0 := by
    simp [hwlen]
  rw [hk, show w ++ (sq :: t) = (w ++ [sq]) ++ t by simp, rewriteGo_skip]
  rw [List.append_assoc]

theorem pass_nomatch (body rep P w t base : List Char)
    (hP : ∀ c ∈ P, lowerChar c ≠ sq)
    (hw : lowerL w = base) (hsq : sq ∉ base) (hpre : ¬ base <+: body)
    (h2 : ciStrip (body ++ [sq]) t = none) :
    rewrite (ciMatcher (sq :: (body ++ [sq])) rep) (P ++ (sq :: (w ++ (sq :: t))))
      = P ++ (sq :: (w ++ (sq :: rewrite (ciMatcher (sq :: (body ++ [sq])) rep) t))) := by
  unfold rewrite
  rw [rewriteGo_walk_noquote (body ++ [sq]) rep P (sq :: (w ++ (sq :: t))) hP]
  have hm0 : ciMatcher (sq :: (body ++ [sq])) rep (sq :: (w ++ (sq :: t))) = none := by
    unfold ciMatcher
    rw [ciStrip_cons_cons, if_pos lowerChar_sq, ciStrip_bodyq_none t hw hsq hpre]
  rw [rewriteGo_zero_cons, hm0]
  dsimp only
  rw [rewriteGo_walk_noquote (body ++ [sq]) rep w (sq :: t) (chars_no_quote hw hsq)]
  have hm1 : ciMatcher (sq :: (body ++ [sq])) rep (sq :: t) = none := by
    unfold ciMatcher
    rw [ciStrip_cons_cons, if_pos lowerChar_sq, h2]
  rw [rewriteGo_zero_cons, hm1]

theorem string_eq_of_data {a b : String} (h : a.data = b.data) : a = b := by
  cases a with
  | mk d1 => cases b with
    | mk d2 => exact congrArg String.mk (by simpa using h)

theorem pass_nomatch_id (body rep P w t base : List Char)
    (hP : ∀ c ∈ P, lowerChar c ≠ sq)
    (hw : lowerL w = base) (hsq : sq ∉ base) (hpre : ¬ base <+: body)
    (h2 : ciStrip (body ++ [sq]) t = none)
    (h3 : rewrite (ciMatcher (sq :: (body ++ [sq])) rep) t = t) :
    rewrite (ciMatcher (sq :: (body ++ [sq])) rep) (P ++ (sq :: (w ++ (sq :: t))))
      = P ++ (sq :: (w ++ (sq :: t))) := by
  rw [pass_nomatch body rep P w t base hP hw hsq hpre h2, h3]

theorem pass_match_final (body rep P w t tr : List Char)
    (hP : ∀ c ∈ P, lowerChar c ≠ sq) (hw : lowerL w = body)
    (h3 : rewrite (ciMatcher (sq :: (body ++ [sq])) rep) t = tr) :
    rewrite (ciMatcher (sq :: (body ++ [sq])) rep) (P ++ (sq :: (w ++ (sq :: t))))
      = P ++ rep ++ tr := by
  rw [pass_match body rep P w t hP hw, h3]

theorem eLit_delivered_1 : lowerL (("'delivered'" : String).data)
    = sq :: (("delivered" : String).data ++ [sq]) := by decide
theorem eLit_delivered_2 : lowerL (("'Delivered'" : String).data)
    = sq :: (("delivered" : String).data ++ [sq]) := by decide
theorem eLit_delivered_3 : lowerL (("'DELIVERED'" : String).data)
    = sq :: (("delivered" : String).data ++ [sq]) := by decide
theorem eLit_pending_1 : lowerL (("'pending'" : String).data)
    = sq :: (("pending" : String).data ++ [sq]) := by decide
theorem eLit_pending_2 : lowerL (("'Pending'" : String).data)
    = sq :: (("pending" : String).data ++ [sq]) := by decide
theorem eLit_pending_3 : lowerL (("'PENDING'" : String).data)
    = sq :: (("pending" : String).data ++ [sq]) := by decide
theorem eLit_processing_1 : lowerL (("'processing'" : String).data)
    = sq :: (("processing" : String).data ++ [sq]) := by decide
theorem eLit_processing_2 : lowerL (("'Processing'" : String).data)
    = sq :: (("processing" : String).data ++ [sq]) := by decide
theorem eLit_processing_3 : lowerL (("'PROCESSING'" : String).data)
    = sq :: (("processing" : String).data ++ [sq]) := by decide
theorem eLit_shipped_1 : lowerL (("'shipped'" : String).data)
    = sq :: (("shipped" : String).data ++ [sq]) := by decide
theorem eLit_shipped_2 : lowerL (("'Shipped'" : String).data)
    = sq :: (("shipped" : String).data ++ [sq]) := by decide
theorem eLit_shipped_3 : lowerL (("'SHIPPED'" : String).data)
    = sq :: (("shipped" : String).data ++ [sq]) := by decide
theorem eLit_cancelled_1 : lowerL (("'cancelled'" : String).data)
    = sq :: (("cancelled" : String).data ++ [sq]) := by decide
theorem eLit_cancelled_2 : lowerL (("'Cancelled'" : String).data)
    = sq :: (("cancelled" : String).data ++ [sq]) := by decide
theorem eLit_cancelled_3 : lowerL (("'CANCELLED'" : String).data)
    = sq :: (("cancelled" : String).data ++ [sq]) := by decide

/-- The fold of `applyCaseFixes` unrolled into its fifteen substitution
passes, with each pattern literal in canonical lower-cased quoted form. -/
theorem applyCaseFixes_eq (l : List Char) :
    applyCaseFixes l =
      rewrite (ciMatcher (sq :: (("cancelled" : String).data ++ [sq])) (("'CANCELLED'" : String).data))
       (rewrite (ciMatcher (sq :: (("cancelled" : String).data ++ [sq])) (("'CANCELLED'" : String).data))
       (rewrite (ciMatcher (sq :: (("cancelled" : String).data ++ [sq])) (("'CANCELLED'" : String).data))
       (rewrite (ciMatcher (sq :: (("shipped" : String).data ++ [sq])) (("'SHIPPED'" : String).data))
       (rewrite (ciMatcher (sq :: (("shipped" : String).data ++ [sq])) (("'SHIPPED'" : String).data))
       (rewrite (ciMatcher (sq :: (("shipped" : String).data ++ [sq])) (("'SHIPPED'" : String).data))
       (rewrite (ciMatcher (sq :: (("processing" : String).data ++ [sq])) (("'PROCESSING'" : String).data))
       (rewrite (ciMatcher (sq :: (("processing" : String).data ++ [sq])) (("'PROCESSING'" : String).data))
       (rewrite (ciMatcher (sq :: (("processing" : String).data ++ [sq])) (("'PROCESSING'" : String).data))
       (rewrite (ciMatcher (sq :: (("pending" : String).data ++ [sq])) (("'PENDING'" : String).data))
       (rewrite (ciMatcher (sq :: (("pending" : String).data ++ [sq])) (("'PENDING'" : String).data))
       (rewrite (ciMatcher (sq :: (("pending" : String).data ++ [sq])) (("'PENDING'" : String).data))
       (rewrite (ciMatcher (sq :: (("delivered" : String).data ++ [sq])) (("'DELIVERED'" : String).data))
       (rewrite (ciMatcher (sq :: (("delivered" : String).data ++ [sq])) (("'DELIVERED'" : String).data))
       (rewrite (ciMatcher (sq :: (("delivered" : String).data ++ [sq])) (("'DELIVERED'" : String).data))
       (l))))))))))))))) := by
  unfold applyCaseFixes enum_mappings
  rw [List.foldl_cons, List.foldl_cons, List.foldl_cons, List.foldl_cons, List.foldl_cons, List.foldl_cons, List.foldl_cons, List.foldl_cons, List.foldl_cons, List.foldl_cons, List.foldl_cons, List.foldl_cons, List.foldl_cons, List.foldl_cons, List.foldl_cons, List.foldl_nil]
  dsimp only
  rw [eLit_delivered_1, eLit_delivered_2, eLit_delivered_3, eLit_pending_1, eLit_pending_2, eLit_pending_3, eLit_processing_1, eLit_processing_2, eLit_processing_3, eLit_shipped_1, eLit_shipped_2, eLit_shipped_3, eLit_cancelled_1, eLit_cancelled_2, eLit_cancelled_3]

/-- Any casing of `'delivered'` in a status-equality comparison normalizes to the canonical cast form. -/
theorem c4_cased_delivered (w : List Char) (hw : lowerL w = ("delivered" : String).data) :
    normalize_enum_values (String.mk (("SELECT * FROM orders WHERE status = " : String).data ++ (sq :: (w ++ [sq]))))
      = "SELECT * FROM orders WHERE status = 'DELIVERED'::orderstatus" := by
  have hP : ∀ c ∈ ("SELECT * FROM orders WHERE status = " : String).data, lowerChar c ≠ sq := by decide
  apply string_eq_of_data
  rw [normalize_data, data_mk, applyCaseFixes_eq]
  rw [pass_match_final (("delivered" : String).data) (("'DELIVERED'" : String).data)
    (("SELECT * FROM orders WHERE status = " : String).data) w [] [] hP hw rfl]
  decide

/-- Any casing of `'pending'` in a status-equality comparison normalizes to the canonical cast form. -/
theorem c4_cased_pending (w : List Char) (hw : lowerL w = ("pending" : String).data) :
    normalize_enum_values (String.mk (("SELECT * FROM orders WHERE status = " : String).data ++ (sq :: (w ++ [sq]))))
      = "SELECT * FROM orders WHERE status = 'PENDING'::orderstatus" := by
  have hP : ∀ c ∈ ("SELECT * FROM orders WHERE status = " : String).data, lowerChar c ≠ sq := by decide
  apply string_eq_of_data
  rw [normalize_data, data_mk, applyCaseFixes_eq]
  rw [pass_nomatch_id (("delivered" : String).data) (("'DELIVERED'" : String).data)
    (("SELECT * FROM orders WHERE status = " : String).data) w [] (("pending" : String).data)
    hP hw (by decide) (by decide) (by decide) rfl]
  rw [pass_nomatch_id (("delivered" : String).data) (("'DELIVERED'" : String).data)
    (("SELECT * FROM orders WHERE status = " : String).data) w [] (("pending" : String).data)
    hP hw (by decide) (by decide) (by decide) rfl]
  rw [pass_nomatch_id (("delivered" : String).data) (("'DELIVERED'" : String).data)
    (("SELECT * FROM orders WHERE status = " : String).data) w [] (("pending" : String).data)
    hP hw (by decide) (by decide) (by decide) rfl]
  rw [pass_match_final (("pending" : String).data) (("'PENDING'" : String).data)
    (("SELECT * FROM orders WHERE status = " : String).data) w [] [] hP hw rfl]
  decide

/-- Any casing of `'processing'` in a status-equality comparison normalizes to the canonical cast form. -/
theorem c4_cased_processing (w : List Char) (hw : lowerL w = ("processing" : String).data) :
    normalize_enum_values (String.mk (("SELECT * FROM orders WHERE status = " : String).data ++ (sq :: (w ++ [sq]))))
      = "SELECT * FROM orders WHERE status = 'PROCESSING'::orderstatus" := by
  have hP : ∀ c ∈ ("SELECT * FROM orders WHERE status = " : String).data, lowerChar c ≠ sq := by decide
  apply string_eq_of_data
  rw [normalize_data, data_mk, applyCaseFixes_eq]
  rw [pass_nomatch_id (("delivered" : String).data) (("'DELIVERED'" : String).data)
    (("SELECT * FROM orders WHERE status = " : String).data) w [] (("processing" : String).data)
    hP hw (by decide) (by decide) (by decide) rfl]
  rw [pass_nomatch_id (("delivered" : String).data) (("'DELIVERED'" : String).data)
    (("SELECT * FROM orders WHERE status = " : String).data) w [] (("processing" : String).data)
    hP hw (by decide) (by decide) (by decide) rfl]
  rw [pass_nomatch_id (("delivered" : String).data) (("'DELIVERED'" : String).data)
    (("SELECT * FROM orders WHERE status = " : String).data) w [] (("processing" : String).data)
    hP hw (by decide) (by decide) (by decide) rfl]
  rw [pass_nomatch_id (("pending" : String).data) (("'PENDING'" : String).data)
    (("SELECT * FROM orders WHERE status = " : String).data) w [] (("processing" : String).data)
    hP hw (by decide) (by decide) (by decide) rfl]
  rw [pass_nomatch_id (("pending" : String).data) (("'PENDING'" : String).data)
    (("SELECT * FROM orders WHERE status = " : String).data) w [] (("processing" : String).data)
    hP hw (by decide) (by decide) (by decide) rfl]
  rw [pass_nomatch_id (("pending" : String).data) (("'PENDING'" : String).data)
    (("SELECT * FROM orders WHERE status = " : String).data) w [] (("processing" : String).data)
    hP hw (by decide) (by decide) (by decide) rfl]
  rw [pass_match_final (("processing" : String).data) (("'PROCESSING'" : String).data)
    (("SELECT * FROM orders WHERE status = " : String).data) w [] [] hP hw rfl]
  decide

/-- Any casing of `'shipped'` in a status-equality comparison normalizes to the canonical cast form. -/
theorem c4_cased_shipped (w : List Char) (hw : lowerL w = ("shipped" : String).data) :
    normalize_enum_values (String.mk (("SELECT * FROM orders WHERE status = " : String).data ++ (sq :: (w ++ [sq]))))
      = "SELECT * FROM orders WHERE status = 'SHIPPED'::orderstatus" := by
  have hP : ∀ c ∈ ("SELECT * FROM orders WHERE status = " : String).data, lowerChar c ≠ sq := by decide
  apply string_eq_of_data
  rw [normalize_data, data_mk, applyCaseFixes_eq]
  rw [pass_nomatch_id (("delivered" : String).data) (("'DELIVERED'" : String).data)
    (("SELECT * FROM orders WHERE status = " : String).data) w [] (("shipped" : String).data)
    hP hw (by decide) (by decide) (by decide) rfl]
  rw [pass_nomatch_id (("delivered" : String).data) (("'DELIVERED'" : String).data)
    (("SELECT * FROM orders WHERE status = " : String).data) w [] (("shipped" : String).data)
    hP hw (by decide) (by decide) (by decide) rfl]
  rw [pass_nomatch_id (("delivered" : String).data) (("'DELIVERED'" : String).data)
    (("SELECT * FROM orders WHERE status = " : String).data) w [] (("shipped" : String).data)
    hP hw (by decide) (by decide) (by decide) rfl]
  rw [pass_nomatch_id (("pending" : String).data) (("'PENDING'" : String).data)
    (("SELECT * FROM orders WHERE status = " : String).data) w [] (("shipped" : String).data)
    hP hw (by decide) (by decide) (by decide) rfl]
  rw [pass_nomatch_id (("pending" : String).data) (("'PENDING'" : String).data)
    (("SELECT * FROM orders WHERE status = " : String).data) w [] (("shipped" : String).data)
    hP hw (by decide) (by decide) (by decide) rfl]
  rw [pass_nomatch_id (("pending" : String).data) (("'PENDING'" : String).data)
    (("SELECT * FROM orders WHERE status = " : String).data) w [] (("shipped" : String).data)
    hP hw (by decide) (by decide) (by decide) rfl]
  rw [pass_nomatch_id (("processing" : String).data) (("'PROCESSING'" : String).data)
    (("SELECT * FROM orders WHERE status = " : String).data) w [] (("shipped" : String).data)
    hP hw (by decide) (by decide) (by decide) rfl]
  rw [pass_nomatch_id (("processing" : String).data) (("'PROCESSING'" : String).data)
    (("SELECT * FROM orders WHERE status = " : String).data) w [] (("shipped" : String).data)
    hP hw (by decide) (by decide) (by decide) rfl]
  rw [pass_nomatch_id (("processing" : String).data) (("'PROCESSING'" : String).data)
    (("SELECT * FROM orders WHERE status = " : String).data) w [] (("shipped" : String).data)
    hP hw (by decide) (by decide) (by decide) rfl]
  rw [pass_match_final (("shipped" : String).data) (("'SHIPPED'" : String).data)
    (("SELECT * FROM orders WHERE status = " : String).data) w [] [] hP hw rfl]
  decide

/-- Any casing of `'cancelled'` in a status-equality comparison normalizes to the canonical cast form. -/
theorem c4_cased_cancelled (w : List Char) (hw : lowerL w = ("cancelled" : String).data) :
    normalize_enum_values (String.mk (("SELECT * FROM orders WHERE status = " : String).data ++ (sq :: (w ++ [sq]))))
      = "SELECT * FROM orders WHERE status = 'CANCELLED'::orderstatus" := by
  have hP : ∀ c ∈ ("SELECT * FROM orders WHERE status = " : String).data, lowerChar c ≠ sq := by decide
  apply string_eq_of_data
  rw [normalize_data, data_mk, applyCaseFixes_eq]
  rw [pass_nomatch_id (("delivered" : String).data) (("'DELIVERED'" : String).data)
    (("SELECT * FROM orders WHERE status = " : String).data) w [] (("cancelled" : String).data)
    hP hw (by decide) (by decide) (by decide) rfl]
  rw [pass_nomatch_id (("delivered" : String).data) (("'DELIVERED'" : String).data)
    (("SELECT * FROM orders WHERE status = " : String).data) w [] (("cancelled" : String).data)
    hP hw (by decide) (by decide) (by decide) rfl]
  rw [pass_nomatch_id (("delivered" : String).data) (("'DELIVERED'" : String).data)
    (("SELECT * FROM orders WHERE status = " : String).data) w [] (("cancelled" : String).data)
    hP hw (by decide) (by decide) (by decide) rfl]
  rw [pass_nomatch_id (("pending" : String).data) (("'PENDING'" : String).data)
    (("SELECT * FROM orders WHERE status = " : String).data) w [] (("cancelled" : String).data)
    hP hw (by decide) (by decide) (by decide) rfl]
  rw [pass_nomatch_id (("pending" : String).data) (("'PENDING'" : String).data)
    (("SELECT * FROM orders WHERE status = " : String).data) w [] (("cancelled" : String).data)
    hP hw (by decide) (by decide) (by decide) rfl]
  rw [pass_nomatch_id (("pending" : String).data) (("'PENDING'" : String).data)
    (("SELECT * FROM orders WHERE status = " : String).data) w [] (("cancelled" : String).data)
    hP hw (by decide) (by decide) (by decide) rfl]
  rw [pass_nomatch_id (("processing" : String).data) (("'PROCESSING'" : String).data)
    (("SELECT * FROM orders WHERE status = " : String).data) w [] (("cancelled" : String).data)
    hP hw (by decide) (by decide) (by decide) rfl]
  rw [pass_nomatch_id (("processing" : String).data) (("'PROCESSING'" : String).data)
    (("SELECT * FROM orders WHERE status = " : String).data) w [] (("cancelled" : String).data)
    hP hw (by decide) (by decide) (by decide) rfl]
  rw [pass_nomatch_id (("processing" : String).data) (("'PROCESSING'" : String).data)
    (("SELECT * FROM orders WHERE status = " : String).data) w [] (("cancelled" : String).data)
    hP hw (by decide) (by decide) (by decide) rfl]
  rw [pass_nomatch_id (("shipped" : String).data) (("'SHIPPED'" : String).data)
    (("SELECT * FROM orders WHERE status = " : String).data) w [] (("cancelled" : String).data)
    hP hw (by decide) (by decide) (by decide) rfl]
  rw [pass_nomatch_id (("shipped" : String).data) (("'SHIPPED'" : String).data)
    (("SELECT * FROM orders WHERE status = " : String).data) w [] (("cancelled" : String).data)
    hP hw (by decide) (by decide) (by decide) rfl]
  rw [pass_nomatch_id (("shipped" : String).data) (("'SHIPPED'" : String).data)
    (("SELECT * FROM orders WHERE status = " : String).data) w [] (("cancelled" : String).data)
    hP hw (by decide) (by decide) (by decide) rfl]
  rw [pass_match_final (("cancelled" : String).data) (("'CANCELLED'" : String).data)
    (("SELECT * FROM orders WHERE status = " : String).data) w [] [] hP hw rfl]
  decide

/-- Any casing of `'delivered'` as a selected constant is still upper-cased (and gets no cast). -/
theorem c10_const_delivered (w : List Char) (hw : lowerL w = ("delivered" : String).data) :
    normalize_enum_values (String.mk (("SELECT " : String).data ++ (sq :: (w ++ (sq :: (" AS tag FROM orders" : String).data)))))
      = "SELECT 'DELIVERED' AS tag FROM orders" := by
  have hP : ∀ c ∈ ("SELECT " : String).data, lowerChar c ≠ sq := by decide
  apply string_eq_of_data
  rw [normalize_data, data_mk, applyCaseFixes_eq]
  rw [pass_match_final (("delivered" : String).data) (("'DELIVERED'" : String).data)
    (("SELECT " : String).data) w ((" AS tag FROM orders" : String).data) ((" AS tag FROM orders" : String).data) hP hw (by decide)]
  decide

/-- Any casing of `'pending'` as a selected constant is still upper-cased (and gets no cast). -/
theorem c10_const_pending (w : List Char) (hw : lowerL w = ("pending" : String).data) :
    normalize_enum_values (String.mk (("SELECT " : String).data ++ (sq :: (w ++ (sq :: (" AS tag FROM orders" : String).data)))))
      = "SELECT 'PENDING' AS tag FROM orders" := by
  have hP : ∀ c ∈ ("SELECT " : String).data, lowerChar c ≠ sq := by decide
  apply string_eq_of_data
  rw [normalize_data, data_mk, applyCaseFixes_eq]
  rw [pass_nomatch_id (("delivered" : String).data) (("'DELIVERED'" : String).data)
    (("SELECT " : String).data) w ((" AS tag FROM orders" : String).data) (("pending" : String).data)
    hP hw (by decide) (by decide) (by decide) (by decide)]
  rw [pass_nomatch_id (("delivered" : String).data) (("'DELIVERED'" : String).data)
    (("SELECT " : String).data) w ((" AS tag FROM orders" : String).data) (("pending" : String).data)
    hP hw (by decide) (by decide) (by decide) (by decide)]
  rw [pass_nomatch_id (("delivered" : String).data) (("'DELIVERED'" : String).data)
    (("SELECT " : String).data) w ((" AS tag FROM orders" : String).data) (("pending" : String).data)
    hP hw (by decide) (by decide) (by decide) (by decide)]
  rw [pass_match_final (("pending" : String).data) (("'PENDING'" : String).data)
    (("SELECT " : String).data) w ((" AS tag FROM orders" : String).data) ((" AS tag FROM orders" : String).data) hP hw (by decide)]
  decide

/-- Any casing of `'processing'` as a selected constant is still upper-cased (and gets no cast). -/
theorem c10_const_processing (w : List Char) (hw : lowerL w = ("processing" : String).data) :
    normalize_enum_values (String.mk (("SELECT " : String).data ++ (sq :: (w ++ (sq :: (" AS tag FROM orders" : String).data)))))
      = "SELECT 'PROCESSING' AS tag FROM orders" := by
  have hP : ∀ c ∈ ("SELECT " : String).data, lowerChar c ≠ sq := by decide
  apply string_eq_of_data
  rw [normalize_data, data_mk, applyCaseFixes_eq]
  rw [pass_nomatch_id (("delivered" : String).data) (("'DELIVERED'" : String).data)
    (("SELECT " : String).data) w ((" AS tag FROM orders" : String).data) (("processing" : String).data)
    hP hw (by decide) (by decide) (by decide) (by decide)]
  rw [pass_nomatch_id (("delivered" : String).data) (("'DELIVERED'" : String).data)
    (("SELECT " : String).data) w ((" AS tag FROM orders" : String).data) (("processing" : String).data)
    hP hw (by decide) (by decide) (by decide) (by decide)]
  rw [pass_nomatch_id (("delivered" : String).data) (("'DELIVERED'" : String).data)
    (("SELECT " : String).data) w ((" AS tag FROM orders" : String).data) (("processing" : String).data)
    hP hw (by decide) (by decide) (by decide) (by decide)]
  rw [pass_nomatch_id (("pending" : String).data) (("'PENDING'" : String).data)
    (("SELECT " : String).data) w ((" AS tag FROM orders" : String).data) (("processing" : String).data)
    hP hw (by decide) (by decide) (by decide) (by decide)]
  rw [pass_nomatch_id (("pending" : String).data) (("'PENDING'" : String).data)
    (("SELECT " : String).data) w ((" AS tag FROM orders" : String).data) (("processing" : String).data)
    hP hw (by decide) (by decide) (by decide) (by decide)]
  rw [pass_nomatch_id (("pending" : String).data) (("'PENDING'" : String).data)
    (("SELECT " : String).data) w ((" AS tag FROM orders" : String).data) (("processing" : String).data)
    hP hw (by decide) (by decide) (by decide) (by decide)]
  rw [pass_match_final (("processing" : String).data) (("'PROCESSING'" : String).data)
    (("SELECT " : String).data) w ((" AS tag FROM orders" : String).data) ((" AS tag FROM orders" : String).data) hP hw (by decide)]
  decide

/-- Any casing of `'shipped'` as a selected constant is still upper-cased (and gets no cast). -/
theorem c10_const_shipped (w : List Char) (hw : lowerL w = ("shipped" : String).data) :
    normalize_enum_values (String.mk (("SELECT " : String).data ++ (sq :: (w ++ (sq :: (" AS tag FROM orders" : String).data)))))
      = "SELECT 'SHIPPED' AS tag FROM orders" := by
  have hP : ∀ c ∈ ("SELECT " : String).data, lowerChar c ≠ sq := by decide
  apply string_eq_of_data
  rw [normalize_data, data_mk, applyCaseFixes_eq]
  rw [pass_nomatch_id (("delivered" : String).data) (("'DELIVERED'" : String).data)
    (("SELECT " : String).data) w ((" AS tag FROM orders" : String).data) (("shipped" : String).data)
    hP hw (by decide) (by decide) (by decide) (by decide)]
  rw [pass_nomatch_id (("delivered" : String).data) (("'DELIVERED'" : String).data)
    (("SELECT " : String).data) w ((" AS tag FROM orders" : String).data) (("shipped" : String).data)
    hP hw (by decide) (by decide) (by decide) (by decide)]
  rw [pass_nomatch_id (("delivered" : String).data) (("'DELIVERED'" : String).data)
    (("SELECT " : String).data) w ((" AS tag FROM orders" : String).data) (("shipped" : String).data)
    hP hw (by decide) (by decide) (by decide) (by decide)]
  rw [pass_nomatch_id (("pending" : String).data) (("'PENDING'" : String).data)
    (("SELECT " : String).data) w ((" AS tag FROM orders" : String).data) (("shipped" : String).data)
    hP hw (by decide) (by decide) (by decide) (by decide)]
  rw [pass_nomatch_id (("pending" : String).data) (("'PENDING'" : String).data)
    (("SELECT " : String).data) w ((" AS tag FROM orders" : String).data) (("shipped" : String).data)
    hP hw (by decide) (by decide) (by decide) (by decide)]
  rw [pass_nomatch_id (("pending" : String).data) (("'PENDING'" : String).data)
    (("SELECT " : String).data) w ((" AS tag FROM orders" : String).data) (("shipped" : String).data)
    hP hw (by decide) (by decide) (by decide) (by decide)]
  rw [pass_nomatch_id (("processing" : String).data) (("'PROCESSING'" : String).data)
    (("SELECT " : String).data) w ((" AS tag FROM orders" : String).data) (("shipped" : String).data)
    hP hw (by decide) (by decide) (by decide) (by decide)]
  rw [pass_nomatch_id (("processing" : String).data) (("'PROCESSING'" : String).data)
    (("SELECT " : String).data) w ((" AS tag FROM orders" : String).data) (("shipped" : String).data)
    hP hw (by decide) (by decide) (by decide) (by decide)]
  rw [pass_nomatch_id (("processing" : String).data) (("'PROCESSING'" : String).data)
    (("SELECT " : String).data) w ((" AS tag FROM orders" : String).data) (("shipped" : String).data)
    hP hw (by decide) (by decide) (by decide) (by decide)]
  rw [pass_match_final (("shipped" : String).data) (("'SHIPPED'" : String).data)
    (("SELECT " : String).data) w ((" AS tag FROM orders" : String).data) ((" AS tag FROM orders" : String).data) hP hw (by decide)]
  decide

/-- Any casing of `'cancelled'` as a selected constant is still upper-cased (and gets no cast). -/
theorem c10_const_cancelled (w : List Char) (hw : lowerL w = ("cancelled" : String).data) :
    normalize_enum_values (String.mk (("SELECT " : String).data ++ (sq :: (w ++ (sq :: (" AS tag FROM orders" : String).data)))))
      = "SELECT 'CANCELLED' AS tag FROM orders" := by
  have hP : ∀ c ∈ ("SELECT " : String).data, lowerChar c ≠ sq := by decide
  apply string_eq_of_data
  rw [normalize_data, data_mk, applyCaseFixes_eq]
  rw [pass_nomatch_id (("delivered" : String).data) (("'DELIVERED'" : String).data)
    (("SELECT " : String).data) w ((" AS tag FROM orders" : String).data) (("cancelled" : String).data)
    hP hw (by decide) (by decide) (by decide) (by decide)]
  rw [pass_nomatch_id (("delivered" : String).data) (("'DELIVERED'" : String).data)
    (("SELECT " : String).data) w ((" AS tag FROM orders" : String).data) (("cancelled" : String).data)
    hP hw (by decide) (by decide) (by decide) (by decide)]
  rw [pass_nomatch_id (("delivered" : String).data) (("'DELIVERED'" : String).data)
    (("SELECT " : String).data) w ((" AS tag FROM orders" : String).data) (("cancelled" : String).data)
    hP hw (by decide) (by decide) (by decide) (by decide)]
  rw [pass_nomatch_id (("pending" : String).data) (("'PENDING'" : String).data)
    (("SELECT " : String).data) w ((" AS tag FROM orders" : String).data) (("cancelled" : String).data)
    hP hw (by decide) (by decide) (by decide) (by decide)]
  rw [pass_nomatch_id (("pending" : String).data) (("'PENDING'" : String).data)
    (("SELECT " : String).data) w ((" AS tag FROM orders" : String).data) (("cancelled" : String).data)
    hP hw (by decide) (by decide) (by decide) (by decide)]
  rw [pass_nomatch_id (("pending" : String).data) (("'PENDING'" : String).data)
    (("SELECT " : String).data) w ((" AS tag FROM orders" : String).data) (("cancelled" : String).data)
    hP hw (by decide) (by decide) (by decide) (by decide)]
  rw [pass_nomatch_id (("processing" : String).data) (("'PROCESSING'" : String).data)
    (("SELECT " : String).data) w ((" AS tag FROM orders" : String).data) (("cancelled" : String).data)
    hP hw (by decide) (by decide) (by decide) (by decide)]
  rw [pass_nomatch_id (("processing" : String).data) (("'PROCESSING'" : String).data)
    (("SELECT " : String).data) w ((" AS tag FROM orders" : String).data) (("cancelled" : String).data)
    hP hw (by decide) (by decide) (by decide) (by decide)]
  rw [pass_nomatch_id (("processing" : String).data) (("'PROCESSING'" : String).data)
    (("SELECT " : String).data) w ((" AS tag FROM orders" : String).data) (("cancelled" : String).data)
    hP hw (by decide) (by decide) (by decide) (by decide)]
  rw [pass_nomatch_id (("shipped" : String).data) (("'SHIPPED'" : String).data)
    (("SELECT " : String).data) w ((" AS tag FROM orders" : String).data) (("cancelled" : String).data)
    hP hw (by decide) (by decide) (by decide) (by decide)]
  rw [pass_nomatch_id (("shipped" : String).data) (("'SHIPPED'" : String).data)
    (("SELECT " : String).data) w ((" AS tag FROM orders" : String).data) (("cancelled" : String).data)
    hP hw (by decide) (by decide) (by decide) (by decide)]
  rw [pass_nomatch_id (("shipped" : String).data) (("'SHIPPED'" : String).data)
    (("SELECT " : String).data) w ((" AS tag FROM orders" : String).data) (("cancelled" : String).data)
    hP hw (by decide) (by decide) (by decide) (by decide)]
  rw [pass_match_final (("cancelled" : String).data) (("'CANCELLED'" : String).data)
    (("SELECT " : String).data) w ((" AS tag FROM orders" : String).data) ((" AS tag FROM orders" : String).data) hP hw (by decide)]
  decide

/-- Any casing of `'delivered'` compared against a non-enum column is still upper-cased (and gets no cast). -/
theorem c10_col_delivered (w : List Char) (hw : lowerL w = ("delivered" : String).data) :
    normalize_enum_values (String.mk (("SELECT * FROM products WHERE name = " : String).data ++ (sq :: (w ++ [sq]))))
      = "SELECT * FROM products WHERE name = 'DELIVERED'" := by
  have hP : ∀ c ∈ ("SELECT * FROM products WHERE name = " : String).data, lowerChar c ≠ sq := by decide
  apply string_eq_of_data
  rw [normalize_data, data_mk, applyCaseFixes_eq]
  rw [pass_match_final (("delivered" : String).data) (("'DELIVERED'" : String).data)
    (("SELECT * FROM products WHERE name = " : String).data) w [] [] hP hw rfl]
  decide

/-- Any casing of `'pending'` compared against a non-enum column is still upper-cased (and gets no cast). -/
theorem c10_col_pending (w : List Char) (hw : lowerL w = ("pending" : String).data) :
    normalize_enum_values (String.mk (("SELECT * FROM products WHERE name = " : String).data ++ (sq :: (w ++ [sq]))))
      = "SELECT * FROM products WHERE name = 'PENDING'" := by
  have hP : ∀ c ∈ ("SELECT * FROM products WHERE name = " : String).data, lowerChar c ≠ sq := by decide
  apply string_eq_of_data
  rw [normalize_data, data_mk, applyCaseFixes_eq]
  rw [pass_nomatch_id (("delivered" : String).data) (("'DELIVERED'" : String).data)
    (("SELECT * FROM products WHERE name = " : String).data) w [] (("pending" : String).data)
    hP hw (by decide) (by decide) (by decide) rfl]
  rw [pass_nomatch_id (("delivered" : String).data) (("'DELIVERED'" : String).data)
    (("SELECT * FROM products WHERE name = " : String).data) w [] (("pending" : String).data)
    hP hw (by decide) (by decide) (by decide) rfl]
  rw [pass_nomatch_id (("delivered" : String).data) (("'DELIVERED'" : String).data)
    (("SELECT * FROM products WHERE name = " : String).data) w [] (("pending" : String).data)
    hP hw (by decide) (by decide) (by decide) rfl]
  rw [pass_match_final (("pending" : String).data) (("'PENDING'" : String).data)
    (("SELECT * FROM products WHERE name = " : String).data) w [] [] hP hw rfl]
  decide

/-- Any casing of `'processing'` compared against a non-enum column is still upper-cased (and gets no cast). -/
theorem c10_col_processing (w : List Char) (hw : lowerL w = ("processing" : String).data) :
    normalize_enum_values (String.mk (("SELECT * FROM products WHERE name = " : String).data ++ (sq :: (w ++ [sq]))))
      = "SELECT * FROM products WHERE name = 'PROCESSING'" := by
  have hP : ∀ c ∈ ("SELECT * FROM products WHERE name = " : String).data, lowerChar c ≠ sq := by decide
  apply string_eq_of_data
  rw [normalize_data, data_mk, applyCaseFixes_eq]
  rw [pass_nomatch_id (("delivered" : String).data) (("'DELIVERED'" : String).data)
    (("SELECT * FROM products WHERE name = " : String).data) w [] (("processing" : String).data)
    hP hw (by decide) (by decide) (by decide) rfl]
  rw [pass_nomatch_id (("delivered" : String).data) (("'DELIVERED'" : String).data)
    (("SELECT * FROM products WHERE name = " : String).data) w [] (("processing" : String).data)
    hP hw (by decide) (by decide) (by decide) rfl]
  rw [pass_nomatch_id (("delivered" : String).data) (("'DELIVERED'" : String).data)
    (("SELECT * FROM products WHERE name = " : String).data) w [] (("processing" : String).data)
    hP hw (by decide) (by decide) (by decide) rfl]
  rw [pass_nomatch_id (("pending" : String).data) (("'PENDING'" : String).data)
    (("SELECT * FROM products WHERE name = " : String).data) w [] (("processing" : String).data)
    hP hw (by decide) (by decide) (by decide) rfl]
  rw [pass_nomatch_id (("pending" : String).data) (("'PENDING'" : String).data)
    (("SELECT * FROM products WHERE name = " : String).data) w [] (("processing" : String).data)
    hP hw (by decide) (by decide) (by decide) rfl]
  rw [pass_nomatch_id (("pending" : String).data) (("'PENDING'" : String).data)
    (("SELECT * FROM products WHERE name = " : String).data) w [] (("processing" : String).data)
    hP hw (by decide) (by decide) (by decide) rfl]
  rw [pass_match_final (("processing" : String).data) (("'PROCESSING'" : String).data)
    (("SELECT * FROM products WHERE name = " : String).data) w [] [] hP hw rfl]
  decide

/-- Any casing of `'shipped'` compared against a non-enum column is still upper-cased (and gets no cast). -/
theorem c10_col_shipped (w : List Char) (hw : lowerL w = ("shipped" : String).data) :
    normalize_enum_values (String.mk (("SELECT * FROM products WHERE name = " : String).data ++ (sq :: (w ++ [sq]))))
      = "SELECT * FROM products WHERE name = 'SHIPPED'" := by
  have hP : ∀ c ∈ ("SELECT * FROM products WHERE name = " : String).data, lowerChar c ≠ sq := by decide
  apply string_eq_of_data
  rw [normalize_data, data_mk, applyCaseFixes_eq]
  rw [pass_nomatch_id (("delivered" : String).data) (("'DELIVERED'" : String).data)
    (("SELECT * FROM products WHERE name = " : String).data) w [] (("shipped" : String).data)
    hP hw (by decide) (by decide) (by decide) rfl]
  rw [pass_nomatch_id (("delivered" : String).data) (("'DELIVERED'" : String).data)
    (("SELECT * FROM products WHERE name = " : String).data) w [] (("shipped" : String).data)
    hP hw (by decide) (by decide) (by decide) rfl]
  rw [pass_nomatch_id (("delivered" : String).data) (("'DELIVERED'" : String).data)
    (("SELECT * FROM products WHERE name = " : String).data) w [] (("shipped" : String).data)
    hP hw (by decide) (by decide) (by decide) rfl]
  rw [pass_nomatch_id (("pending" : String).data) (("'PENDING'" : String).data)
    (("SELECT * FROM products WHERE name = " : String).data) w [] (("shipped" : String).data)
    hP hw (by decide) (by decide) (by decide) rfl]
  rw [pass_nomatch_id (("pending" : String).data) (("'PENDING'" : String).data)
    (("SELECT * FROM products WHERE name = " : String).data) w [] (("shipped" : String).data)
    hP hw (by decide) (by decide) (by decide) rfl]
  rw [pass_nomatch_id (("pending" : String).data) (("'PENDING'" : String).data)
    (("SELECT * FROM products WHERE name = " : String).data) w [] (("shipped" : String).data)
    hP hw (by decide) (by decide) (by decide) rfl]
  rw [pass_nomatch_id (("processing" : String).data) (("'PROCESSING'" : String).data)
    (("SELECT * FROM products WHERE name = " : String).data) w [] (("shipped" : String).data)
    hP hw (by decide) (by decide) (by decide) rfl]
  rw [pass_nomatch_id (("processing" : String).data) (("'PROCESSING'" : String).data)
    (("SELECT * FROM products WHERE name = " : String).data) w [] (("shipped" : String).data)
    hP hw (by decide) (by decide) (by decide) rfl]
  rw [pass_nomatch_id (("processing" : String).data) (("'PROCESSING'" : String).data)
    (("SELECT * FROM products WHERE name = " : String).data) w [] (("shipped" : String).data)
    hP hw (by decide) (by decide) (by decide) rfl]
  rw [pass_match_final (("shipped" : String).data) (("'SHIPPED'" : String).data)
    (("SELECT * FROM products WHERE name = " : String).data) w [] [] hP hw rfl]
  decide

/-- Any casing of `'cancelled'` compared against a non-enum column is still upper-cased (and gets no cast). -/
theorem c10_col_cancelled (w : List Char) (hw : lowerL w = ("cancelled" : String).data) :
    normalize_enum_values (String.mk (("SELECT * FROM products WHERE name = " : String).data ++ (sq :: (w ++ [sq]))))
      = "SELECT * FROM products WHERE name = 'CANCELLED'" := by
  have hP : ∀ c ∈ ("SELECT * FROM products WHERE name = " : String).data, lowerChar c ≠ sq := by decide
  apply string_eq_of_data
  rw [normalize_data, data_mk, applyCaseFixes_eq]
  rw [pass_nomatch_id (("delivered" : String).data) (("'DELIVERED'" : String).data)
    (("SELECT * FROM products WHERE name = " : String).data) w [] (("cancelled" : String).data)
    hP hw (by decide) (by decide) (by decide) rfl]
  rw [pass_nomatch_id (("delivered" : String).data) (("'DELIVERED'" : String).data)
    (("SELECT * FROM products WHERE name = " : String).data) w [] (("cancelled" : String).data)
    hP hw (by decide) (by decide) (by decide) rfl]
  rw [pass_nomatch_id (("delivered" : String).data) (("'DELIVERED'" : String).data)
    (("SELECT * FROM products WHERE name = " : String).data) w [] (("cancelled" : String).data)
    hP hw (by decide) (by decide) (by decide) rfl]
  rw [pass_nomatch_id (("pending" : String).data) (("'PENDING'" : String).data)
    (("SELECT * FROM products WHERE name = " : String).data) w [] (("cancelled" : String).data)
    hP hw (by decide) (by decide) (by decide) rfl]
  rw [pass_nomatch_id (("pending" : String).data) (("'PENDING'" : String).data)
    (("SELECT * FROM products WHERE name = " : String).data) w [] (("cancelled" : String).data)
    hP hw (by decide) (by decide) (by decide) rfl]
  rw [pass_nomatch_id (("pending" : String).data) (("'PENDING'" : String).data)
    (("SELECT * FROM products WHERE name = " : String).data) w [] (("cancelled" : String).data)
    hP hw (by decide) (by decide) (by decide) rfl]
  rw [pass_nomatch_id (("processing" : String).data) (("'PROCESSING'" : String).data)
    (("SELECT * FROM products WHERE name = " : String).data) w [] (("cancelled" : String).data)
    hP hw (by decide) (by decide) (by decide) rfl]
  rw [pass_nomatch_id (("processing" : String).data) (("'PROCESSING'" : String).data)
    (("SELECT * FROM products WHERE name = " : String).data) w [] (("cancelled" : String).data)
    hP hw (by decide) (by decide) (by decide) rfl]
  rw [pass_nomatch_id (("processing" : String).data) (("'PROCESSING'" : String).data)
    (("SELECT * FROM products WHERE name = " : String).data) w [] (("cancelled" : String).data)
    hP hw (by decide) (by decide) (by decide) rfl]
  rw [pass_nomatch_id (("shipped" : String).data) (("'SHIPPED'" : String).data)
    (("SELECT * FROM products WHERE name = " : String).data) w [] (("cancelled" : String).data)
    hP hw (by decide) (by decide) (by decide) rfl]
  rw [pass_nomatch_id (("shipped" : String).data) (("'SHIPPED'" : String).data)
    (("SELECT * FROM products WHERE name = " : String).data) w [] (("cancelled" : String).data)
    hP hw (by decide) (by decide) (by decide) rfl]
  rw [pass_nomatch_id (("shipped" : String).data) (("'SHIPPED'" : String).data)
    (("SELECT * FROM products WHERE name = " : String).data) w [] (("cancelled" : String).data)
    hP hw (by decide) (by decide) (by decide) rfl]
  rw [pass_match_final (("cancelled" : String).data) (("'CANCELLED'" : String).data)
    (("SELECT * FROM products WHERE name = " : String).data) w [] [] hP hw rfl]
  decide

/-- C4: for every letter casing `w` of a recognized OrderStatus literal in
a status-equality comparison, the Enum Normalizer produces the one
canonical output: the literal upper-cased with the `::orderstatus` cast
appended; and when the cast marker is already present, no second cast is
appended. -/
theorem c4_enum_literal_any_casing_canonical :
    (∀ w : List Char, lowerL w = ("pending" : String).data →
      normalize_enum_values (String.mk
        (("SELECT * FROM orders WHERE status = " : String).data ++ (sq :: (w ++ [sq]))))
        = "SELECT * FROM orders WHERE status = 'PENDING'::orderstatus")
    ∧ (∀ w : List Char, lowerL w = ("processing" : String).data →
      normalize_enum_values (String.mk
        (("SELECT * FROM orders WHERE status = " : String).data ++ (sq :: (w ++ [sq]))))
        = "SELECT * FROM orders WHERE status = 'PROCESSING'::orderstatus")
    ∧ (∀ w : List Char, lowerL w = ("shipped" : String).data →
      normalize_enum_values (String.mk
        (("SELECT * FROM orders WHERE status = " : String).data ++ (sq :: (w ++ [sq]))))
        = "SELECT * FROM orders WHERE status = 'SHIPPED'::orderstatus")
    ∧ (∀ w : List Char, lowerL w = ("delivered" : String).data →
      normalize_enum_values (String.mk
        (("SELECT * FROM orders WHERE status = " : String).data ++ (sq :: (w ++ [sq]))))
        = "SELECT * FROM orders WHERE status = 'DELIVERED'::orderstatus")
    ∧ (∀ w : List Char, lowerL w = ("cancelled" : String).data →
      normalize_enum_values (String.mk
        (("SELECT * FROM orders WHERE status = " : String).data ++ (sq :: (w ++ [sq]))))
        = "SELECT * FROM orders WHERE status = 'CANCELLED'::orderstatus")
    ∧ (normalize_enum_values "SELECT * FROM orders WHERE status = 'PENDING'::orderstatus"
        = "SELECT * FROM orders WHERE status = 'PENDING'::orderstatus"
      ∧ normalize_enum_values "SELECT * FROM orders WHERE status = 'PROCESSING'::orderstatus"
        = "SELECT * FROM orders WHERE status = 'PROCESSING'::orderstatus"
      ∧ normalize_enum_values "SELECT * FROM orders WHERE status = 'SHIPPED'::orderstatus"
        = "SELECT * FROM orders WHERE status = 'SHIPPED'::orderstatus"
      ∧ normalize_enum_values "SELECT * FROM orders WHERE status = 'DELIVERED'::orderstatus"
        = "SELECT * FROM orders WHERE status = 'DELIVERED'::orderstatus"
      ∧ normalize_enum_values "SELECT * FROM orders WHERE status = 'CANCELLED'::orderstatus"
        = "SELECT * FROM orders WHERE status = 'CANCELLED'::orderstatus") :=
  ⟨c4_cased_pending, c4_cased_processing, c4_cased_shipped, c4_cased_delivered,
   c4_cased_cancelled,
   by decide, by decide, by decide, by decide, by decide⟩

/-- C4, witness: the theorem applied at the mixed-case spelling
`'dElIvErEd'`. -/
theorem c4_witness :
    normalize_enum_values (String.mk
      (("SELECT * FROM orders WHERE status = " : String).data
        ++ (sq :: (("dElIvErEd" : String).data ++ [sq]))))
      = "SELECT * FROM orders WHERE status = 'DELIVERED'::orderstatus" :=
  c4_enum_literal_any_casing_canonical.2.2.2.1 (("dElIvErEd" : String).data) (by decide)

/-- C10: the case-folding applies to every single-quoted occurrence of the
five OrderStatus member names in any letter case, also when the literal is
a bare selected constant or is compared against a non-enum column — it is
upper-cased there too (and, lacking a `status =` or `IN (` context, gets
no cast). -/
theorem c10_casefold_everywhere :
    (∀ w : List Char, lowerL w = ("pending" : String).data →
      normalize_enum_values (String.mk
        (("SELECT " : String).data ++ (sq :: (w ++ (sq :: (" AS tag FROM orders" : String).data)))))
        = "SELECT 'PENDING' AS tag FROM orders")
    ∧ (∀ w : List Char, lowerL w = ("processing" : String).data →
      normalize_enum_values (String.mk
        (("SELECT " : String).data ++ (sq :: (w ++ (sq :: (" AS tag FROM orders" : String).data)))))
        = "SELECT 'PROCESSING' AS tag FROM orders")
    ∧ (∀ w : List Char, lowerL w = ("shipped" : String).data →
      normalize_enum_values (String.mk
        (("SELECT " : String).data ++ (sq :: (w ++ (sq :: (" AS tag FROM orders" : String).data)))))
        = "SELECT 'SHIPPED' AS tag FROM orders")
    ∧ (∀ w : List Char, lowerL w = ("delivered" : String).data →
      normalize_enum_values (String.mk
        (("SELECT " : String).data ++ (sq :: (w ++ (sq :: (" AS tag FROM orders" : String).data)))))
        = "SELECT 'DELIVERED' AS tag FROM orders")
    ∧ (∀ w : List Char, lowerL w = ("cancelled" : String).data →
      normalize_enum_values (String.mk
        (("SELECT " : String).data ++ (sq :: (w ++ (sq :: (" AS tag FROM orders" : String).data)))))
        = "SELECT 'CANCELLED' AS tag FROM orders")
    ∧ (∀ w : List Char, lowerL w = ("pending" : String).data →
      normalize_enum_values (String.mk
        (("SELECT * FROM products WHERE name = " : String).data ++ (sq :: (w ++ [sq]))))
        = "SELECT * FROM products WHERE name = 'PENDING'")
    ∧ (∀ w : List Char, lowerL w = ("processing" : String).data →
      normalize_enum_values (String.mk
        (("SELECT * FROM products WHERE name = " : String).data ++ (sq :: (w ++ [sq]))))
        = "SELECT * FROM products WHERE name = 'PROCESSING'")
    ∧ (∀ w : List Char, lowerL w = ("shipped" : String).data →
      normalize_enum_values (String.mk
        (("SELECT * FROM products WHERE name = " : String).data ++ (sq :: (w ++ [sq]))))
        = "SELECT * FROM products WHERE name = 'SHIPPED'")
    ∧ (∀ w : List Char, lowerL w = ("delivered" : String).data →
      normalize_enum_values (String.mk
        (("SELECT * FROM products WHERE name = " : String).data ++ (sq :: (w ++ [sq]))))
        = "SELECT * FROM products WHERE name = 'DELIVERED'")
    ∧ (∀ w : List Char, lowerL w = ("cancelled" : String).data →
      normalize_enum_values (String.mk
        (("SELECT * FROM products WHERE name = " : String).data ++ (sq :: (w ++ [sq]))))
        = "SELECT * FROM products WHERE name = 'CANCELLED'") :=
  ⟨c10_const_pending, c10_const_processing, c10_const_shipped, c10_const_delivered,
   c10_const_cancelled, c10_col_pending, c10_col_processing, c10_col_shipped,
   c10_col_delivered, c10_col_cancelled⟩

/-- C10, witness: the theorem applied at the mixed-case selected constant
`'pEnDiNg'`. -/
theorem c10_witness :
    normalize_enum_values (String.mk
      (("SELECT " : String).data
        ++ (sq :: (("pEnDiNg" : String).data ++ (sq :: (" AS tag FROM orders" : String).data)))))
      = "SELECT 'PENDING' AS tag FROM orders" :=
  c10_casefold_everywhere.1 (("pEnDiNg" : String).data) (by decide)

end ErpAi
